import Mathlib

/-!
# Verification of the daily-climate inference core of `server.js`

This file gives a shallow embedding, over the real numbers, of the pure
statistical pipeline of the repository (`src/server.js`): percentile and
IQR-outlier statistics, weighted trend regression, the prediction blender
with its calibration override and seasonal adjustment, adaptive thresholds,
exceedance probabilities, compound risk scores and the two-phase hourly
temperature interpolation.  JavaScript numbers are modelled as `ℝ`;
`parseFloat(x.toFixed(d))` is modelled as decimal rounding `roundTo d`;
a JavaScript field that can be `undefined` is modelled with `Option`;
the one statement that could throw is modelled with `Except`.
Theorems after the definitions settle the specified properties.
-/

namespace NasaMvp

open Classical in
/-- Model of `parseFloat(x.toFixed(d))`: round to `d` decimal places. -/
noncomputable def roundTo (d : ℕ) (x : ℝ) : ℝ := (round (x * 10 ^ d) : ℤ) / 10 ^ d

lemma roundTo_mono (d : ℕ) {x y : ℝ} (h : x ≤ y) : roundTo d x ≤ roundTo d y := by
  unfold roundTo
  have hp : (0:ℝ) < 10 ^ d := by positivity
  have hm : x * 10 ^ d ≤ y * 10 ^ d := by
    exact mul_le_mul_of_nonneg_right h (le_of_lt hp)
  have : round (x * 10 ^ d) ≤ round (y * 10 ^ d) := by
    rw [round_eq, round_eq]
    exact Int.floor_le_floor (by linarith)
  have hcast : ((round (x * 10 ^ d) : ℤ) : ℝ) ≤ ((round (y * 10 ^ d) : ℤ) : ℝ) := by
    exact_mod_cast this
  gcongr

/-- If `x * 10^d` is an integer then rounding to `d` decimals leaves `x` unchanged. -/
lemma roundTo_of_mul_eq (d : ℕ) (x : ℝ) (n : ℤ) (h : x * 10 ^ d = (n : ℝ)) :
    roundTo d x = x := by
  have hp : (0:ℝ) < 10 ^ d := by positivity
  unfold roundTo
  rw [h, round_intCast]
  field_simp at h ⊢
  linarith

lemma roundTo_int (d : ℕ) (n : ℤ) : roundTo d ((n : ℝ)) = n := by
  apply roundTo_of_mul_eq d _ (n * 10 ^ d)
  push_cast
  ring

lemma roundTo_nonneg (d : ℕ) {x : ℝ} (h : 0 ≤ x) : 0 ≤ roundTo d x := by
  have := roundTo_mono d h
  rwa [show roundTo d 0 = 0 by simpa using roundTo_int d 0] at this

lemma roundTo_le_one (d : ℕ) {x : ℝ} (h : x ≤ 1) : roundTo d x ≤ 1 := by
  have := roundTo_mono d h
  rwa [show roundTo d 1 = 1 by simpa using roundTo_int d 1] at this

lemma roundTo_le_hundred (d : ℕ) {x : ℝ} (h : x ≤ 100) : roundTo d x ≤ 100 := by
  have := roundTo_mono d h
  rwa [show roundTo d 100 = 100 by simpa using roundTo_int d 100] at this

/-! ## Percentiles (`calculatePercentile`, server.js lines 255-264) -/

open Classical in
/-- Model of `calculatePercentile(arr, percentile)`: sort ascending, then linearly
interpolate at fractional index `p/100 * (n-1)`. -/
noncomputable def calculatePercentile (arr : List ℝ) (percentile : ℝ) : ℝ :=
  if arr.length = 0 then 0 else
  let sorted := arr.insertionSort (· ≤ ·)
  let index := (percentile / 100) * ((sorted.length : ℝ) - 1)
  let lower := ⌊index⌋
  let upper := ⌈index⌉
  let weight := index - (lower : ℝ)
  sorted.getD lower.toNat 0 * (1 - weight) + sorted.getD upper.toNat 0 * weight

/-- The linear-interpolation expression of `calculatePercentile` at real index `t`. -/
noncomputable def interpAt (s : List ℝ) (t : ℝ) : ℝ :=
  s.getD ⌊t⌋.toNat 0 * (1 - (t - (⌊t⌋ : ℝ))) + s.getD ⌈t⌉.toNat 0 * (t - (⌊t⌋ : ℝ))

lemma calculatePercentile_eq (l : List ℝ) (p : ℝ) (h : l ≠ []) :
    calculatePercentile l p =
      interpAt (l.insertionSort (· ≤ ·)) ((p / 100) * ((l.length : ℝ) - 1)) := by
  have hlen : l.length ≠ 0 := by simpa using h
  simp only [calculatePercentile, interpAt, List.length_insertionSort, if_neg hlen]

lemma sorted_getD_mono {s : List ℝ} (hs : s.Sorted (· ≤ ·)) {i j : ℕ}
    (hij : i ≤ j) (hj : j < s.length) : s.getD i 0 ≤ s.getD j 0 := by
  have hi : i < s.length := Nat.lt_of_le_of_lt hij hj
  rw [List.getD_eq_getElem _ _ hi, List.getD_eq_getElem _ _ hj]
  have := hs.rel_get_of_le (a := ⟨i, hi⟩) (b := ⟨j, hj⟩) (Fin.mk_le_mk.mpr hij)
  simpa [List.get_eq_getElem] using this

lemma interpAt_le_ceil {s : List ℝ} (hs : s.Sorted (· ≤ ·)) {t : ℝ}
    (ht0 : 0 ≤ t) (htN : t ≤ (s.length : ℝ) - 1) :
    interpAt s t ≤ s.getD ⌈t⌉.toNat 0 := by
  have hn1 : (1 : ℝ) ≤ s.length := by linarith
  have hn : 1 ≤ s.length := by exact_mod_cast hn1
  have hf0 : (0 : ℤ) ≤ ⌊t⌋ := Int.floor_nonneg.mpr ht0
  have hfc : ⌊t⌋ ≤ ⌈t⌉ := Int.floor_le_ceil t
  have hcN : ⌈t⌉ ≤ (s.length : ℤ) - 1 := by
    rw [Int.ceil_le]
    push_cast
    linarith
  have hjlt : ⌈t⌉.toNat < s.length := by omega
  have hab : s.getD ⌊t⌋.toNat 0 ≤ s.getD ⌈t⌉.toNat 0 :=
    sorted_getD_mono hs (by omega) hjlt
  have hw0 : 0 ≤ t - (⌊t⌋ : ℝ) := by
    have := Int.floor_le t
    linarith
  have hw1 : t - (⌊t⌋ : ℝ) ≤ 1 := by
    have := Int.lt_floor_add_one t
    linarith
  unfold interpAt
  nlinarith [hab, hw0, hw1]

lemma floor_le_interpAt {s : List ℝ} (hs : s.Sorted (· ≤ ·)) {t : ℝ}
    (ht0 : 0 ≤ t) (htN : t ≤ (s.length : ℝ) - 1) :
    s.getD ⌊t⌋.toNat 0 ≤ interpAt s t := by
  have hn1 : (1 : ℝ) ≤ s.length := by linarith
  have hn : 1 ≤ s.length := by exact_mod_cast hn1
  have hf0 : (0 : ℤ) ≤ ⌊t⌋ := Int.floor_nonneg.mpr ht0
  have hfc : ⌊t⌋ ≤ ⌈t⌉ := Int.floor_le_ceil t
  have hcN : ⌈t⌉ ≤ (s.length : ℤ) - 1 := by
    rw [Int.ceil_le]
    push_cast
    linarith
  have hjlt : ⌈t⌉.toNat < s.length := by omega
  have hab : s.getD ⌊t⌋.toNat 0 ≤ s.getD ⌈t⌉.toNat 0 :=
    sorted_getD_mono hs (by omega) hjlt
  have hw0 : 0 ≤ t - (⌊t⌋ : ℝ) := by
    have := Int.floor_le t
    linarith
  unfold interpAt
  nlinarith [hab, hw0]

lemma interpAt_mono {s : List ℝ} (hs : s.Sorted (· ≤ ·)) {t u : ℝ}
    (ht0 : 0 ≤ t) (htu : t ≤ u) (huN : u ≤ (s.length : ℝ) - 1) :
    interpAt s t ≤ interpAt s u := by
  have hu0 : 0 ≤ u := le_trans ht0 htu
  have htN : t ≤ (s.length : ℝ) - 1 := le_trans htu huN
  have hn1 : (1 : ℝ) ≤ s.length := by linarith
  have hn : 1 ≤ s.length := by exact_mod_cast hn1
  have hft0 : (0 : ℤ) ≤ ⌊t⌋ := Int.floor_nonneg.mpr ht0
  have hfu0 : (0 : ℤ) ≤ ⌊u⌋ := Int.floor_nonneg.mpr hu0
  have hff : ⌊t⌋ ≤ ⌊u⌋ := Int.floor_le_floor htu
  have hfct : ⌊t⌋ ≤ ⌈t⌉ := Int.floor_le_ceil t
  have hfcu : ⌊u⌋ ≤ ⌈u⌉ := Int.floor_le_ceil u
  have hct1 : ⌈t⌉ ≤ ⌊t⌋ + 1 := Int.ceil_le_floor_add_one t
  have hcu1 : ⌈u⌉ ≤ ⌊u⌋ + 1 := Int.ceil_le_floor_add_one u
  have hcuN : ⌈u⌉ ≤ (s.length : ℤ) - 1 := by
    rw [Int.ceil_le]
    push_cast
    linarith
  have hctN : ⌈t⌉ ≤ (s.length : ℤ) - 1 := le_trans (Int.ceil_le_ceil htu) hcuN
  by_cases hc : ⌈t⌉ ≤ ⌊u⌋
  · calc interpAt s t ≤ s.getD ⌈t⌉.toNat 0 := interpAt_le_ceil hs ht0 htN
      _ ≤ s.getD ⌊u⌋.toNat 0 := sorted_getD_mono hs (by omega) (by omega)
      _ ≤ interpAt s u := floor_le_interpAt hs hu0 huN
  · -- same integer cell: ⌊t⌋ = ⌊u⌋ and both ceilings are ⌊t⌋ + 1
    have hk : ⌊t⌋ = ⌊u⌋ := by omega
    have hct : ⌈t⌉ = ⌊t⌋ + 1 := by omega
    by_cases hcu : ⌈u⌉ = ⌊u⌋
    · -- then u is an integer, forcing t = u, contradicting ⌊u⌋ < ⌈t⌉
      exfalso
      have hu_le : u ≤ (⌊u⌋ : ℝ) := by
        have := Int.le_ceil u
        rw [hcu] at this
        linarith [this]
      have hu_ge : (⌊u⌋ : ℝ) ≤ u := Int.floor_le u
      have htk : t = (⌊t⌋ : ℝ) := by
        have h1 : (⌊t⌋ : ℝ) ≤ t := Int.floor_le t
        have h2 : t ≤ (⌊u⌋ : ℝ) := le_trans htu hu_le
        rw [← hk] at h2
        linarith
      have : ⌈t⌉ = ⌊t⌋ := by
        rw [htk, Int.ceil_intCast, Int.floor_intCast]
      omega
    · have hcu' : ⌈u⌉ = ⌊u⌋ + 1 := by omega
      have hidx : (⌊u⌋ + 1).toNat < s.length := by omega
      have hab : s.getD ⌊u⌋.toNat 0 ≤ s.getD (⌊u⌋ + 1).toNat 0 :=
        sorted_getD_mono hs (by omega) hidx
      have hwt : t - (⌊t⌋ : ℝ) ≤ u - (⌊u⌋ : ℝ) := by
        rw [← hk]
        linarith
      have hw0 : 0 ≤ t - (⌊t⌋ : ℝ) := by
        have := Int.floor_le t
        linarith
      unfold interpAt
      rw [hct, hk, hcu']
      nlinarith [hab, hwt, hw0]

lemma percentile_zero_eq (l : List ℝ) (h : l ≠ []) :
    calculatePercentile l 0 = (l.insertionSort (· ≤ ·)).getD 0 0 := by
  rw [calculatePercentile_eq l 0 h]
  norm_num [interpAt]

lemma percentile_hundred_eq (l : List ℝ) (h : l ≠ []) :
    calculatePercentile l 100 = (l.insertionSort (· ≤ ·)).getD (l.length - 1) 0 := by
  have hlen : 1 ≤ l.length := List.length_pos.mpr h
  rw [calculatePercentile_eq l 100 h]
  have hNcast : ((l.length : ℝ) - 1) = (((l.length : ℤ) - 1 : ℤ) : ℝ) := by push_cast; ring
  have hidx : (100 / 100 : ℝ) * ((l.length : ℝ) - 1) = (((l.length : ℤ) - 1 : ℤ) : ℝ) := by
    rw [← hNcast]; ring
  rw [interpAt, hidx, Int.floor_intCast, Int.ceil_intCast]
  have htn : ((l.length : ℤ) - 1).toNat = l.length - 1 := by omega
  rw [htn]
  ring

/-- C7:  for every non-empty list, `calculatePercentile` at 0 returns the
minimum of the list, at 100 returns the maximum, and it is monotonically
non-decreasing in the percentile argument over `[0, 100]`. -/
theorem percentile_min_max_mono (l : List ℝ) (p q : ℝ) (hne : l ≠ []) :
    (calculatePercentile l 0 ∈ l ∧ ∀ x ∈ l, calculatePercentile l 0 ≤ x) ∧
    (calculatePercentile l 100 ∈ l ∧ ∀ x ∈ l, x ≤ calculatePercentile l 100) ∧
    (0 ≤ p → p ≤ q → q ≤ 100 → calculatePercentile l p ≤ calculatePercentile l q) := by
  set s := l.insertionSort (· ≤ ·) with hs_def
  have hsorted : s.Sorted (· ≤ ·) := List.sorted_insertionSort (· ≤ ·) l
  have hperm : s.Perm l := List.perm_insertionSort (· ≤ ·) l
  have hslen : s.length = l.length := List.length_insertionSort (· ≤ ·) l
  have hlen : 1 ≤ l.length := List.length_pos.mpr hne
  have hslen1 : 1 ≤ s.length := by omega
  refine ⟨⟨?_, ?_⟩, ⟨?_, ?_⟩, ?_⟩
  · rw [percentile_zero_eq l hne, ← hs_def]
    rw [List.getD_eq_getElem _ _ (by omega)]
    exact hperm.mem_iff.mp (List.getElem_mem _)
  · intro x hx
    rw [percentile_zero_eq l hne, ← hs_def]
    have hxs : x ∈ s := hperm.mem_iff.mpr hx
    obtain ⟨j, hj, rfl⟩ := List.getElem_of_mem hxs
    rw [← List.getD_eq_getElem s 0 hj]
    exact sorted_getD_mono hsorted (Nat.zero_le j) hj
  · rw [percentile_hundred_eq l hne, ← hs_def]
    rw [List.getD_eq_getElem _ _ (by omega)]
    exact hperm.mem_iff.mp (List.getElem_mem _)
  · intro x hx
    rw [percentile_hundred_eq l hne, ← hs_def]
    have hxs : x ∈ s := hperm.mem_iff.mpr hx
    obtain ⟨j, hj, rfl⟩ := List.getElem_of_mem hxs
    rw [← @List.getD_eq_getElem ℝ s 0 j hj]
    exact sorted_getD_mono hsorted (by omega) (by omega)
  · intro hp0 hpq hq100
    rw [calculatePercentile_eq l p hne, calculatePercentile_eq l q hne, ← hs_def]
    have hlen1 : (0 : ℝ) ≤ (l.length : ℝ) - 1 := by
      have : (1 : ℝ) ≤ (l.length : ℝ) := by exact_mod_cast hlen
      linarith
    apply interpAt_mono hsorted
    · positivity
    · apply mul_le_mul_of_nonneg_right _ hlen1
      linarith
    · rw [hslen]
      have : q / 100 ≤ 1 := by linarith
      nlinarith

/-! ## Descriptive statistics (server.js lines 266-414) -/

/-- Model of `calculateStdDev(arr, mean)`: population standard deviation. -/
noncomputable def calculateStdDev (arr : List ℝ) (mean : ℝ) : ℝ :=
  if arr.length = 0 then 0
  else Real.sqrt ((arr.map (fun value => (value - mean) ^ 2)).sum / arr.length)

structure ConfidenceInterval where
  lower : ℝ
  upper : ℝ
  margin : ℝ


/-- Model of `calculateConfidenceInterval(mean, stdDev, n)`: 95% CI via z = 1.96. -/
noncomputable def calculateConfidenceInterval (mean stdDev : ℝ) (n : ℕ) :
    ConfidenceInterval :=
  if n = 0 then ⟨0, 0, 0⟩
  else
    let marginError := 1.96 * (stdDev / Real.sqrt n)
    ⟨mean - marginError, mean + marginError, marginError⟩

open Classical in
/-- Model of `filterOutliers(values)` (lines 276-297): IQR filter with bounds
`[Q1 - 2*IQR, Q3 + 2*IQR]`; a no-op below 4 points or when it would drop
more than 10% of the data. -/
noncomputable def filterOutliers (values : List ℝ) : List ℝ :=
  if values.length < 4 then values
  else
    let q1 := calculatePercentile values 25
    let q3 := calculatePercentile values 75
    let iqr := q3 - q1
    let lowerBound := q1 - 2.0 * iqr
    let upperBound := q3 + 2.0 * iqr
    let filtered := values.filter (fun v => lowerBound ≤ v ∧ v ≤ upperBound)
    if (filtered.length : ℝ) < (values.length : ℝ) * 0.9 then values
    else filtered

structure StatPercentiles where
  p10 : ℝ
  p25 : ℝ
  p50 : ℝ
  p75 : ℝ
  p90 : ℝ


structure Stats where
  mean : ℝ
  median : ℝ
  stdDev : ℝ
  min : ℝ
  max : ℝ
  count : ℕ
  percentiles : StatPercentiles
  confidenceInterval95 : ConfidenceInterval


def zeroStats : Stats :=
  { mean := 0, median := 0, stdDev := 0, min := 0, max := 0, count := 0,
    percentiles := ⟨0, 0, 0, 0, 0⟩, confidenceInterval95 := ⟨0, 0, 0⟩ }

/-- Model of `Math.min(...arr)` for a non-empty array. -/
def listMin : List ℝ → ℝ
  | [] => 0
  | a :: t => t.foldl min a

/-- Model of `Math.max(...arr)` for a non-empty array. -/
def listMax : List ℝ → ℝ
  | [] => 0
  | a :: t => t.foldl max a

open Classical in
/-- Model of `calculateStatistics(values, removeOutliers)` (lines 368-414).  The branch
that in the source assigns to the `const` binding `dataToAnalyze` (which
would throw a `TypeError` at runtime) is modelled as `Except.error`. -/
noncomputable def calculateStatistics (values : List ℝ)
    (removeOutliers : Bool := false) : Except String Stats :=
  if values.length = 0 then .ok zeroStats
  else
    let dataToAnalyze := if removeOutliers then filterOutliers values else values
    if dataToAnalyze.length = 0 then
      .error "TypeError: Assignment to constant variable."
    else
      let mean := dataToAnalyze.sum / dataToAnalyze.length
      let stdDev := calculateStdDev dataToAnalyze mean
      let ci95 := calculateConfidenceInterval mean stdDev dataToAnalyze.length
      .ok { mean := roundTo 2 mean,
            median := roundTo 2 (calculatePercentile dataToAnalyze 50),
            stdDev := roundTo 2 stdDev,
            min := roundTo 2 (listMin dataToAnalyze),
            max := roundTo 2 (listMax dataToAnalyze),
            count := dataToAnalyze.length,
            percentiles :=
              ⟨roundTo 2 (calculatePercentile dataToAnalyze 10),
               roundTo 2 (calculatePercentile dataToAnalyze 25),
               roundTo 2 (calculatePercentile dataToAnalyze 50),
               roundTo 2 (calculatePercentile dataToAnalyze 75),
               roundTo 2 (calculatePercentile dataToAnalyze 90)⟩,
            confidenceInterval95 :=
              ⟨roundTo 2 ci95.lower, roundTo 2 ci95.upper, roundTo 2 ci95.margin⟩ }

/-- The statistics record used inside `calculateDailyProbabilities`, which
always calls `calculateStatistics(values)` with the default
`removeOutliers = false`. -/
noncomputable def statsOf (values : List ℝ) : Stats :=
  match calculateStatistics values false with
  | .ok s => s
  | .error _ => zeroStats

lemma filterOutliers_spec (values : List ℝ) :
    (filterOutliers values).Sublist values ∧
    9 * values.length ≤ 10 * (filterOutliers values).length ∧
    (values ≠ [] → filterOutliers values ≠ []) := by
  unfold filterOutliers
  by_cases h4 : values.length < 4
  · simp only [if_pos h4]
    exact ⟨List.Sublist.refl _, by omega, fun h => h⟩
  · simp only [if_neg h4]
    set filtered := values.filter
      (fun v => decide (calculatePercentile values 25 - 2.0 * (calculatePercentile values 75 - calculatePercentile values 25) ≤ v ∧
        v ≤ calculatePercentile values 75 + 2.0 * (calculatePercentile values 75 - calculatePercentile values 25))) with hf
    by_cases hcut : (filtered.length : ℝ) < (values.length : ℝ) * 0.9
    · simp only [if_pos hcut]
      exact ⟨List.Sublist.refl _, by omega, fun h => h⟩
    · simp only [if_neg hcut]
      push_neg at hcut
      have hlen : 9 * values.length ≤ 10 * filtered.length := by
        have h10 : (9 : ℝ) * values.length ≤ 10 * filtered.length := by nlinarith
        exact_mod_cast h10
      refine ⟨List.filter_sublist _, hlen, fun _ => ?_⟩
      have hv4 : 4 ≤ values.length := by omega
      have : 1 ≤ filtered.length := by omega
      exact List.ne_nil_of_length_pos (by omega)

lemma calculateStatistics_ok (values : List ℝ) (removeOutliers : Bool) :
    ∃ s, calculateStatistics values removeOutliers = .ok s := by
  unfold calculateStatistics
  by_cases h0 : values.length = 0
  · exact ⟨zeroStats, by simp [h0]⟩
  · have hne : values ≠ [] := fun h => h0 (by simp [h])
    have hdata : (if removeOutliers then filterOutliers values else values).length ≠ 0 := by
      cases removeOutliers with
      | false => simpa using h0
      | true =>
        have := (filterOutliers_spec values).2.2 hne
        simpa using fun h => this (List.eq_nil_of_length_eq_zero h)
    simp only [if_neg h0, if_neg hdata]
    exact ⟨_, rfl⟩

/-- C8:  the IQR outlier filter returns a sublist of its input holding at
least 90% of the points and never empties a non-empty list; hence the
`dataToAnalyze.length === 0` fallback in `calculateStatistics` (whose body
re-assigns a `const` and would throw) is unreachable, and
`calculateStatistics` never throws, outlier filtering enabled or not. -/
theorem filterOutliers_safe (values : List ℝ) (removeOutliers : Bool) :
    (filterOutliers values).Sublist values ∧
    9 * values.length ≤ 10 * (filterOutliers values).length ∧
    (values ≠ [] → filterOutliers values ≠ []) ∧
    ∃ s, calculateStatistics values removeOutliers = .ok s := by
  obtain ⟨h1, h2, h3⟩ := filterOutliers_spec values
  exact ⟨h1, h2, h3, calculateStatistics_ok values removeOutliers⟩

/-- C9:  on an empty series `calculateStatistics` returns the all-zero
statistics record (count 0, zero percentiles, zero confidence interval) and
does not throw. -/
theorem calculateStatistics_empty (removeOutliers : Bool) :
    calculateStatistics [] removeOutliers =
      .ok { mean := 0, median := 0, stdDev := 0, min := 0, max := 0, count := 0,
            percentiles := ⟨0, 0, 0, 0, 0⟩,
            confidenceInterval95 := ⟨0, 0, 0⟩ } := rfl

/-! ## JavaScript numbers that can be NaN

The reachable NaN paths of the source are modelled explicitly: a division
`0/0` (weighted average of an empty series, R² of a constant-valued series)
and arithmetic on an `undefined` field (`0 * currentYear + undefined` for the
insufficient-data trend) produce NaN, which then propagates through `+`, `*`,
`-`, `Math.min` and `Math.max` and survives `toFixed`/`parseFloat`. -/

inductive JsVal where
  | nan : JsVal
  | num : ℝ → JsVal

namespace JsVal

noncomputable def add : JsVal → JsVal → JsVal
  | num a, num b => num (a + b)
  | _, _ => nan

noncomputable def sub : JsVal → JsVal → JsVal
  | num a, num b => num (a - b)
  | _, _ => nan

noncomputable def mul : JsVal → JsVal → JsVal
  | num a, num b => num (a * b)
  | _, _ => nan

/-- `Math.max`: NaN if either argument is NaN. -/
noncomputable def jmax : JsVal → JsVal → JsVal
  | num a, num b => num (max a b)
  | _, _ => nan

/-- `Math.min`: NaN if either argument is NaN. -/
noncomputable def jmin : JsVal → JsVal → JsVal
  | num a, num b => num (min a b)
  | _, _ => nan

end JsVal

/-- `parseFloat(v.toFixed(d))`: rounding keeps NaN as NaN. -/
noncomputable def roundToJs (d : ℕ) (v : JsVal) : JsVal :=
  match v with
  | .nan => .nan
  | .num x => .num (roundTo d x)

lemma JsVal.add_num (a b : ℝ) : JsVal.add (.num a) (.num b) = .num (a + b) := rfl

lemma JsVal.add_nan_right (v : JsVal) : JsVal.add v .nan = .nan := by
  cases v <;> rfl

lemma JsVal.add_nan_left (v : JsVal) : JsVal.add .nan v = .nan := by
  cases v <;> rfl

lemma JsVal.mul_nan_left (v : JsVal) : JsVal.mul .nan v = .nan := by
  cases v <;> rfl

/-! ## Weighted trend regression (`calculateTrend`, server.js lines 510-546) -/

structure TrendResult where
  slope : ℝ
  intercept : Option ℝ
  rSquared : Option JsVal
  confidence : String
  method : String

open Classical in
/-- Model of `calculateTrend(dataWithYear, currentYear)`: exponentially weighted linear
regression (τ = 5 years); with fewer than 10 points only
`{slope: 0, confidence: "low", method: "insufficient_data"}` is returned
(absent fields are `none`). -/
noncomputable def calculateTrend (dataWithYear : List (ℤ × ℝ)) (currentYear : ℤ) :
    TrendResult :=
  if dataWithYear.length < 10 then
    { slope := 0, intercept := none, rSquared := none,
      confidence := "low", method := "insufficient_data" }
  else
    let w : ℤ × ℝ → ℝ := fun d => Real.exp (-(((currentYear : ℝ) - (d.1 : ℝ)) / 5))
    let sumWeights := (dataWithYear.map w).sum
    let sumWX := (dataWithYear.map fun d => w d * (d.1 : ℝ)).sum
    let sumWY := (dataWithYear.map fun d => w d * d.2).sum
    let sumWXY := (dataWithYear.map fun d => w d * (d.1 : ℝ) * d.2).sum
    let sumWXX := (dataWithYear.map fun d => w d * (d.1 : ℝ) * (d.1 : ℝ)).sum
    let slope := (sumWXY - sumWX * sumWY / sumWeights) /
      (sumWXX - sumWX * sumWX / sumWeights)
    let intercept := (sumWY - slope * sumWX) / sumWeights
    let yMeanWeighted := sumWY / sumWeights
    let ssTotalWeighted :=
      (dataWithYear.map fun d => w d * (d.2 - yMeanWeighted) ^ 2).sum
    let ssResidualWeighted :=
      (dataWithYear.map fun d => w d * (d.2 - (slope * (d.1 : ℝ) + intercept)) ^ 2).sum
    -- `ssResidualWeighted / ssTotalWeighted` is `0/0 = NaN` in the source
    -- when the series is constant-valued (then `ssTotalWeighted = 0`); a NaN
    -- slope would additionally require duplicate years, which the unique
    -- date-key extraction cannot produce.
    let rSquared : JsVal :=
      if ssTotalWeighted = 0 then .nan
      else .num (1 - ssResidualWeighted / ssTotalWeighted)
    { slope := roundTo 4 slope,
      intercept := some (roundTo 2 intercept),
      rSquared := some (roundToJs 3 rSquared),
      confidence :=
        match rSquared with
        | .nan => "low"   -- in JS, NaN > 0.5 and NaN > 0.2 are both false
        | .num r => if r > 0.5 then "high" else if r > 0.2 then "medium" else "low",
      method := "weighted_regression" }

lemma sum_map_nonneg {α : Type} (l : List α) (f : α → ℝ) (h : ∀ a ∈ l, 0 ≤ f a) :
    0 ≤ (l.map f).sum := by
  apply List.sum_nonneg
  intro x hx
  obtain ⟨a, ha, rfl⟩ := List.mem_map.mp hx
  exact h a ha

lemma sum_map_pos {α : Type} (l : List α) (f : α → ℝ) (hne : l ≠ [])
    (h : ∀ a ∈ l, 0 < f a) : 0 < (l.map f).sum := by
  apply List.sum_pos
  · intro x hx
    obtain ⟨a, ha, rfl⟩ := List.mem_map.mp hx
    exact h a ha
  · simpa using hne

/-- Expanding a weighted sum of squared residuals against a line `s·x + i`. -/
lemma sum_sq_expand {α : Type} (l : List α) (w x y : α → ℝ) (s i : ℝ) :
    (l.map fun a => w a * (y a - (s * x a + i)) ^ 2).sum =
      (l.map fun a => w a * y a * y a).sum
      - 2 * s * (l.map fun a => w a * x a * y a).sum
      - 2 * i * (l.map fun a => w a * y a).sum
      + s ^ 2 * (l.map fun a => w a * x a * x a).sum
      + 2 * s * i * (l.map fun a => w a * x a).sum
      + i ^ 2 * (l.map w).sum := by
  induction l with
  | nil => simp
  | cons a t ih =>
    simp only [List.map_cons, List.sum_cons]
    rw [show (t.map fun a => w a * (y a - (s * x a + i)) ^ 2).sum =
      (t.map fun a => w a * y a * y a).sum
      - 2 * s * (t.map fun a => w a * x a * y a).sum
      - 2 * i * (t.map fun a => w a * y a).sum
      + s ^ 2 * (t.map fun a => w a * x a * x a).sum
      + 2 * s * i * (t.map fun a => w a * x a).sum
      + i ^ 2 * (t.map w).sum from ih]
    ring

/-- Core bound: the weighted R² of the fitted line lies in `[0, 1]`
(with the Lean convention `z / 0 = 0` covering the degenerate cases). -/
lemma trend_r2_core (l : List (ℤ × ℝ)) (w : ℤ × ℝ → ℝ)
    (hw : ∀ d ∈ l, 0 < w d) (hne : l ≠ [])
    (W B C D A s i ybar ssTot ssRes : ℝ)
    (hW : W = (l.map w).sum)
    (hB : B = (l.map fun d => w d * (d.1 : ℝ)).sum)
    (hC : C = (l.map fun d => w d * d.2).sum)
    (hD : D = (l.map fun d => w d * (d.1 : ℝ) * d.2).sum)
    (hA : A = (l.map fun d => w d * (d.1 : ℝ) * (d.1 : ℝ)).sum)
    (hs : s = (D - B * C / W) / (A - B * B / W))
    (hi : i = (C - s * B) / W)
    (hybar : ybar = C / W)
    (hT : ssTot = (l.map fun d => w d * (d.2 - ybar) ^ 2).sum)
    (hR : ssRes = (l.map fun d => w d * (d.2 - (s * (d.1 : ℝ) + i)) ^ 2).sum) :
    0 ≤ 1 - ssRes / ssTot ∧ 1 - ssRes / ssTot ≤ 1 := by
  have hW0 : 0 < W := by
    rw [hW]; exact sum_map_pos l w hne hw
  have hWne : W ≠ 0 := ne_of_gt hW0
  set E : ℝ := (l.map fun d => w d * d.2 * d.2).sum with hE
  -- expansions of the three sums of squares
  have hTot : ssTot = E - 2 * ybar * C + ybar ^ 2 * W := by
    rw [hT, show (fun d : ℤ × ℝ => w d * (d.2 - ybar) ^ 2) =
      (fun d : ℤ × ℝ => w d * (d.2 - ((0:ℝ) * (d.1 : ℝ) + ybar)) ^ 2) from by
        funext d; ring]
    rw [sum_sq_expand l w (fun d => (d.1 : ℝ)) (fun d => d.2) 0 ybar]
    rw [← hE, ← hB, ← hC, ← hD, ← hW]
    ring
  have hResE : ssRes = E - 2 * s * D - 2 * i * C + s ^ 2 * A + 2 * s * i * B + i ^ 2 * W := by
    rw [hR, sum_sq_expand l w (fun d => (d.1 : ℝ)) (fun d => d.2) s i]
    rw [← hE, ← hB, ← hC, ← hD, ← hA, ← hW]
  have hRes0 : 0 ≤ ssRes := by
    rw [hR]
    apply sum_map_nonneg
    intro d hd
    exact mul_nonneg (le_of_lt (hw d hd)) (sq_nonneg _)
  have hTot0 : 0 ≤ ssTot := by
    rw [hT]
    apply sum_map_nonneg
    intro d hd
    exact mul_nonneg (le_of_lt (hw d hd)) (sq_nonneg _)
  -- A - B²/W is a weighted sum of squares, hence nonnegative
  have hSxx0 : 0 ≤ A - B * B / W := by
    have hx : (l.map fun d => w d * ((d.1 : ℝ) - B / W) ^ 2).sum
        = A - 2 * (B / W) * B + (B / W) ^ 2 * W := by
      rw [show (fun d : ℤ × ℝ => w d * ((d.1 : ℝ) - B / W) ^ 2) =
        (fun d : ℤ × ℝ => w d * ((d.1 : ℝ) - ((0:ℝ) * (d.1 : ℝ) + B / W)) ^ 2) from by
          funext d; ring]
      rw [sum_sq_expand l w (fun d => (d.1 : ℝ)) (fun d => (d.1 : ℝ)) 0 (B / W)]
      rw [← hB, ← hA, ← hW]
      ring
    have hx0 : 0 ≤ (l.map fun d => w d * ((d.1 : ℝ) - B / W) ^ 2).sum := by
      apply sum_map_nonneg
      intro d hd
      exact mul_nonneg (le_of_lt (hw d hd)) (sq_nonneg _)
    rw [hx] at hx0
    have heq : A - 2 * (B / W) * B + (B / W) ^ 2 * W = A - B * B / W := by
      field_simp
      ring
    linarith [heq ▸ hx0]
  have hTotC : ssTot = E - C ^ 2 / W := by
    rw [hTot, hybar]
    field_simp
    ring
  -- substituting the intercept gives the classical decomposition
  have hmid : ssRes = ssTot - 2 * s * (D - B * C / W) + s ^ 2 * (A - B * B / W) := by
    rw [hResE, hTotC, hi]
    field_simp
    ring
  have hResLe : ssRes ≤ ssTot := by
    by_cases hSxx : A - B * B / W = 0
    · have hs0 : s = 0 := by rw [hs, hSxx, div_zero]
      rw [hmid, hs0, hSxx]
      ring_nf
      linarith
    · have hslope : s * (A - B * B / W) = D - B * C / W := by
        rw [hs]
        exact div_mul_cancel₀ _ hSxx
      have hRT : ssRes = ssTot - s ^ 2 * (A - B * B / W) := by
        rw [hmid, ← hslope]
        ring
      rw [hRT]
      nlinarith [sq_nonneg s, hSxx0]
  constructor
  · by_cases hT0 : ssTot = 0
    · rw [hT0, div_zero]
      norm_num
    · have hTpos : 0 < ssTot := lt_of_le_of_ne hTot0 (Ne.symm hT0)
      have : ssRes / ssTot ≤ 1 := by
        rw [div_le_one hTpos]
        exact hResLe
      linarith
  · by_cases hT0 : ssTot = 0
    · rw [hT0, div_zero]
      norm_num
    · have hTpos : 0 < ssTot := lt_of_le_of_ne hTot0 (Ne.symm hT0)
      have : 0 ≤ ssRes / ssTot := div_nonneg hRes0 (le_of_lt hTpos)
      linarith

lemma sum_map_mul_const {α : Type} (l : List α) (f : α → ℝ) (c : ℝ) :
    (l.map fun a => f a * c).sum = (l.map f).sum * c := by
  induction l with
  | nil => simp
  | cons a t ih =>
    simp only [List.map_cons, List.sum_cons, ih]
    ring

/-- A weighted sum of squared deviations with positive weights vanishes only
when every value equals the reference point. -/
lemma values_eq_of_weighted_ss_zero {l : List (ℤ × ℝ)} {w : ℤ × ℝ → ℝ} {c : ℝ}
    (hw : ∀ d ∈ l, 0 < w d)
    (h0 : (l.map fun d => w d * (d.2 - c) ^ 2).sum = 0) :
    ∀ d ∈ l, d.2 = c := by
  intro d hd
  have hnn : ∀ x ∈ l.map fun d => w d * (d.2 - c) ^ 2, 0 ≤ x := by
    intro x hx
    obtain ⟨a, ha, rfl⟩ := List.mem_map.mp hx
    exact mul_nonneg (le_of_lt (hw a ha)) (sq_nonneg _)
  have hz : w d * (d.2 - c) ^ 2 = 0 :=
    List.all_zero_of_le_zero_le_of_sum_eq_zero hnn h0 (List.mem_map_of_mem _ hd)
  rcases mul_eq_zero.mp hz with h | h
  · exact absurd h (ne_of_gt (hw d hd))
  · have := (pow_eq_zero_iff two_ne_zero).mp h
    linarith

/-- A constant-valued series makes the weighted total sum of squares zero
(its weighted mean is the constant itself). -/
lemma weighted_ss_zero_of_const {l : List (ℤ × ℝ)} {w : ℤ × ℝ → ℝ} {c : ℝ}
    (hw : ∀ d ∈ l, 0 < w d) (hne : l ≠ []) (hconst : ∀ d ∈ l, d.2 = c) :
    (l.map fun d =>
      w d * (d.2 - (l.map fun d => w d * d.2).sum / (l.map w).sum) ^ 2).sum = 0 := by
  have hW : 0 < (l.map w).sum := sum_map_pos l w hne hw
  have hWY : (l.map fun d => w d * d.2).sum = (l.map w).sum * c := by
    rw [List.map_congr_left
      (fun d hd => by rw [hconst d hd] :
        ∀ d ∈ l, w d * d.2 = (fun d => w d * c) d)]
    exact sum_map_mul_const l w c
  have hmean : (l.map fun d => w d * d.2).sum / (l.map w).sum = c := by
    rw [hWY]
    field_simp
  have hz : ∀ d ∈ l,
      w d * (d.2 - (l.map fun d => w d * d.2).sum / (l.map w).sum) ^ 2 =
        (fun _ : ℤ × ℝ => (0:ℝ)) d := by
    intro d hd
    rw [hconst d hd, hmean]
    ring
  rw [List.map_congr_left hz]
  simp

/-- On any series of 10 or more points whose values are all equal, the source
computes `ssTotalWeighted = 0` and hence `rSquared = 1 - 0/0 = NaN`. -/
lemma calculateTrend_constant_nan (data : List (ℤ × ℝ)) (currentYear : ℤ) (c : ℝ)
    (hlen : 10 ≤ data.length) (hconst : ∀ d ∈ data, d.2 = c) :
    (calculateTrend data currentYear).rSquared = some JsVal.nan := by
  have hnot : ¬ data.length < 10 := by omega
  have hne : data ≠ [] := by
    intro h
    rw [h] at hlen
    simp at hlen
  unfold calculateTrend
  rw [if_neg hnot]
  simp only []
  split_ifs with hT0
  · rfl
  · exact absurd (weighted_ss_zero_of_const (fun d _ => Real.exp_pos _) hne hconst) hT0

/-- C5 (amended): with at least 10 points whose values are not all identical,
the returned `rSquared` is a real number in `[0, 1]`; a constant-valued
series instead yields NaN (the counterexample below); with fewer than 10
points the trend estimator returns slope exactly 0 and confidence `"low"`
without attempting a regression. -/
theorem calculateTrend_spec (data : List (ℤ × ℝ)) (currentYear : ℤ) :
    (10 ≤ data.length →
      (∃ d1 ∈ data, ∃ d2 ∈ data, d1.2 ≠ d2.2) →
      ∃ r, (calculateTrend data currentYear).rSquared = some (JsVal.num r) ∧
        0 ≤ r ∧ r ≤ 1) ∧
    (data.length < 10 →
      (calculateTrend data currentYear).slope = 0 ∧
      (calculateTrend data currentYear).confidence = "low" ∧
      (calculateTrend data currentYear).method = "insufficient_data") := by
  constructor
  · intro hlen hvals
    have hnot : ¬ data.length < 10 := by omega
    have hne : data ≠ [] := by
      intro h
      rw [h] at hlen
      simp at hlen
    unfold calculateTrend
    rw [if_neg hnot]
    simp only []
    split_ifs with hT0
    · -- a vanishing total sum of squares forces a constant series
      exfalso
      obtain ⟨d1, hd1, d2, hd2, hne12⟩ := hvals
      have hall := values_eq_of_weighted_ss_zero (fun d _ => Real.exp_pos _) hT0
      rw [hall d1 hd1, hall d2 hd2] at hne12
      exact hne12 rfl
    · refine ⟨_, rfl, ?_, ?_⟩
      · apply roundTo_nonneg
        exact (trend_r2_core data _ (fun d _ => Real.exp_pos _) hne
          _ _ _ _ _ _ _ _ _ _ rfl rfl rfl rfl rfl rfl rfl rfl rfl rfl).1
      · apply roundTo_le_one
        exact (trend_r2_core data _ (fun d _ => Real.exp_pos _) hne
          _ _ _ _ _ _ _ _ _ _ rfl rfl rfl rfl rfl rfl rfl rfl rfl rfl).2
  · intro hlen
    unfold calculateTrend
    rw [if_pos hlen]
    exact ⟨rfl, rfl, rfl⟩

/-- Counterexample to C5 as stated: ten years of identical values (a series
the date-key extraction can produce) give `ssTotalWeighted = 0`, so the
source computes `rSquared = 1 - 0/0 = NaN`, which lies in no real interval:
there is no real `r` in `[0, 1]` that the trend model returns. -/
theorem calculateTrend_rSquared_nan :
    (10:ℕ) ≤ ([((2011:ℤ), (5:ℝ)), ((2012:ℤ), (5:ℝ)), ((2013:ℤ), (5:ℝ)),
      ((2014:ℤ), (5:ℝ)), ((2015:ℤ), (5:ℝ)), ((2016:ℤ), (5:ℝ)), ((2017:ℤ), (5:ℝ)),
      ((2018:ℤ), (5:ℝ)), ((2019:ℤ), (5:ℝ)), ((2020:ℤ), (5:ℝ))] : List (ℤ × ℝ)).length ∧
    (calculateTrend [((2011:ℤ), (5:ℝ)), ((2012:ℤ), (5:ℝ)), ((2013:ℤ), (5:ℝ)),
      ((2014:ℤ), (5:ℝ)), ((2015:ℤ), (5:ℝ)), ((2016:ℤ), (5:ℝ)), ((2017:ℤ), (5:ℝ)),
      ((2018:ℤ), (5:ℝ)), ((2019:ℤ), (5:ℝ)), ((2020:ℤ), (5:ℝ))] 2025).rSquared =
      some JsVal.nan ∧
    ¬ ∃ r : ℝ, (calculateTrend [((2011:ℤ), (5:ℝ)), ((2012:ℤ), (5:ℝ)), ((2013:ℤ), (5:ℝ)),
      ((2014:ℤ), (5:ℝ)), ((2015:ℤ), (5:ℝ)), ((2016:ℤ), (5:ℝ)), ((2017:ℤ), (5:ℝ)),
      ((2018:ℤ), (5:ℝ)), ((2019:ℤ), (5:ℝ)), ((2020:ℤ), (5:ℝ))] 2025).rSquared =
      some (JsVal.num r) ∧ 0 ≤ r ∧ r ≤ 1 := by
  have hnan := calculateTrend_constant_nan [((2011:ℤ), (5:ℝ)), ((2012:ℤ), (5:ℝ)),
    ((2013:ℤ), (5:ℝ)), ((2014:ℤ), (5:ℝ)), ((2015:ℤ), (5:ℝ)), ((2016:ℤ), (5:ℝ)),
    ((2017:ℤ), (5:ℝ)), ((2018:ℤ), (5:ℝ)), ((2019:ℤ), (5:ℝ)), ((2020:ℤ), (5:ℝ))]
    2025 5 (by decide) (by intro d hd; fin_cases hd <;> rfl)
  refine ⟨by decide, hnan, ?_⟩
  rintro ⟨r, hr, -⟩
  rw [hnan] at hr
  exact JsVal.noConfusion (Option.some.inj hr)

/-! ## Seasonal adjustments (`getSeasonalAdjustments`, server.js lines 191-216) -/

structure SeasonalAdj where
  temp : ℝ
  precip : ℝ
  humidity : ℝ
  name : String

noncomputable def getSeasonalAdjustments (month : ℕ) : SeasonalAdj :=
  match month with
  | 1 => ⟨0.2, 1.5, 1.2, "Verano lluvioso"⟩
  | 2 => ⟨0.1, 1.4, 1.2, "Verano lluvioso"⟩
  | 3 => ⟨-0.3, 1.0, 1.0, "Otoño transición"⟩
  | 4 => ⟨-0.8, 0.5, 0.9, "Otoño seco"⟩
  | 5 => ⟨-1.2, 0.2, 0.8, "Otoño seco"⟩
  | 6 => ⟨-1.5, 0.1, 0.7, "Invierno seco"⟩
  | 7 => ⟨-1.6, 0.1, 0.7, "Invierno seco"⟩
  | 8 => ⟨-1.3, 0.1, 0.7, "Invierno seco"⟩
  | 9 => ⟨-0.4, 0.4, 0.8, "Primavera"⟩
  | 10 => ⟨-3.5, 0.8, 0.9, "Primavera húmeda"⟩
  | 11 => ⟨0.5, 1.2, 1.1, "Primavera húmeda"⟩
  | 12 => ⟨0.3, 1.4, 1.2, "Verano lluvioso"⟩
  | _ => ⟨0, 1.0, 1.0, "Desconocido"⟩

/-! ## Hourly interpolation (`interpolateHourlyTemperature`, server.js 128-185) -/

structure HourlyParams where
  hourOfMin : ℤ
  hourOfMax : ℤ
  warmingSpeed : ℝ
  coolingSpeed : ℝ

/-- Seasonal parameter sets of the diurnal curve (a `null` month keeps the
defaults `6/15/1.5/0.8`). -/
noncomputable def hourlyParams (month : Option ℕ) : HourlyParams :=
  match month with
  | none => ⟨6, 15, 1.5, 0.8⟩
  | some m =>
    if 6 ≤ m ∧ m ≤ 8 then ⟨7, 14, 1.8, 0.7⟩
    else if m = 12 ∨ m = 1 ∨ m = 2 then ⟨6, 16, 1.3, 0.4⟩
    else if m = 10 then ⟨6, 15, 1.5, 1.25⟩
    else ⟨6, 15, 1.5, 0.8⟩

/-- Warming-phase formula `tempMin + amplitude * sin(t*π/2)^warmingSpeed`. -/
noncomputable def warmingCurve (tempMin amplitude ws t : ℝ) : ℝ :=
  tempMin + amplitude * Real.sin (t * Real.pi / 2) ^ ws

/-- Cooling-phase formula `tempMin + amplitude * (1-t)^coolingSpeed`. -/
noncomputable def coolingCurve (tempMin amplitude cs t : ℝ) : ℝ :=
  tempMin + amplitude * (1 - t) ^ cs

open Classical in
noncomputable def interpolateHourlyTemperature (tempMin tempMax : ℝ) (hour : ℤ)
    (month : Option ℕ) : ℝ :=
  let p := hourlyParams month
  let amplitude := tempMax - tempMin
  let hoursSinceMin :=
    if p.hourOfMin ≤ hour then hour - p.hourOfMin else (24 - p.hourOfMin) + hour
  if hoursSinceMin ≤ p.hourOfMax - p.hourOfMin then
    let t : ℝ := (hoursSinceMin : ℝ) / ((p.hourOfMax - p.hourOfMin : ℤ) : ℝ)
    roundTo 1 (warmingCurve tempMin amplitude p.warmingSpeed t)
  else
    let hoursInCooling : ℤ := 24 - (p.hourOfMax - p.hourOfMin)
    let hoursSincePeak := hoursSinceMin - (p.hourOfMax - p.hourOfMin)
    let t : ℝ := (hoursSincePeak : ℝ) / ((hoursInCooling : ℤ) : ℝ)
    roundTo 1 (coolingCurve tempMin amplitude p.coolingSpeed t)

lemma hourlyParams_min_lt_max (month : Option ℕ) :
    (hourlyParams month).hourOfMin < (hourlyParams month).hourOfMax := by
  cases month with
  | none => norm_num [hourlyParams]
  | some m =>
    simp only [hourlyParams]
    split_ifs <;> norm_num

/-- C10:  at the phase boundary `t = 1` of the warming window the warming
formula equals `tempMax`, which is also the value of the cooling formula at
`t = 0`: the hourly interpolation is continuous at `hourOfMax`, and indeed
`interpolateHourlyTemperature` evaluated at the hour of maximum returns
(the rounding of) `tempMax`, for every seasonal parameter set. -/
theorem hourlyInterpolation_continuous (tempMin tempMax : ℝ) (month : Option ℕ) :
    warmingCurve tempMin (tempMax - tempMin) (hourlyParams month).warmingSpeed 1 = tempMax ∧
    coolingCurve tempMin (tempMax - tempMin) (hourlyParams month).coolingSpeed 0 = tempMax ∧
    interpolateHourlyTemperature tempMin tempMax (hourlyParams month).hourOfMax month =
      roundTo 1 tempMax := by
  have hwarm : warmingCurve tempMin (tempMax - tempMin)
      (hourlyParams month).warmingSpeed 1 = tempMax := by
    unfold warmingCurve
    rw [one_mul, Real.sin_pi_div_two, Real.one_rpow]
    ring
  have hcool : coolingCurve tempMin (tempMax - tempMin)
      (hourlyParams month).coolingSpeed 0 = tempMax := by
    unfold coolingCurve
    norm_num [Real.one_rpow]
  refine ⟨hwarm, hcool, ?_⟩
  have hlt := hourlyParams_min_lt_max month
  unfold interpolateHourlyTemperature
  simp only []
  rw [if_pos (le_of_lt hlt), if_pos (le_refl _)]
  have hne : (((hourlyParams month).hourOfMax - (hourlyParams month).hourOfMin : ℤ) : ℝ) ≠ 0 := by
    have : (hourlyParams month).hourOfMax - (hourlyParams month).hourOfMin ≠ 0 := by omega
    exact_mod_cast this
  rw [div_self hne, hwarm]

/-! ## Exceedance probability (`calculateRealProbability`, lines 358-365) -/

open Classical in
/-- Empirical exceedance rate `100 * count / totalCount`, direction-aware. -/
noncomputable def calculateRealProbability (values : List ℝ) (threshold : ℝ)
    (isAbove : Bool := true) : ℝ :=
  if values.length = 0 then 0
  else
    ((values.filter fun v =>
        if isAbove then decide (threshold < v) else decide (v < threshold)).length : ℝ)
      / (values.length : ℝ) * 100

/-! ## Calibration database (`calibrationDatabase`/`findCalibration`, 604-645) -/

structure CalibrationEntry where
  lat : ℝ
  lon : ℝ
  month : ℕ
  tempMax : ℝ
  tempMin : ℝ
  radius : ℝ

/-- The five hard-coded calibration entries, in object-literal order:
`cochabamba_oct`, `cochabamba_nov`, `cochabamba_dic`, `lapaz_oct`,
`santacruz_oct`. -/
noncomputable def calibrationDatabase : List CalibrationEntry :=
  [⟨-17.39, -66.16, 10, 26.0, 12.0, 0.5⟩,
   ⟨-17.39, -66.16, 11, 24.5, 11.0, 0.5⟩,
   ⟨-17.39, -66.16, 12, 26.0, 13.0, 0.5⟩,
   ⟨-16.50, -68.15, 10, 16.5, 3.0, 0.3⟩,
   ⟨-17.78, -63.18, 10, 29.0, 19.0, 0.4⟩]

open Classical in
/-- Scan of the calibration table: the first entry whose Euclidean distance
in degrees is within its radius and whose month matches is returned. -/
noncomputable def findCalibrationIn :
    List CalibrationEntry → ℝ → ℝ → ℕ → Option CalibrationEntry
  | [], _, _, _ => none
  | cal :: rest, lat, lon, month =>
    if Real.sqrt ((lat - cal.lat) ^ 2 + (lon - cal.lon) ^ 2) ≤ cal.radius ∧
        month = cal.month
    then some cal
    else findCalibrationIn rest lat lon month

noncomputable def findCalibration (lat lon : ℝ) (month : ℕ) :
    Option CalibrationEntry :=
  findCalibrationIn calibrationDatabase lat lon month

/-! ## Prediction blender (lines 583-663) -/

/-- Weighted moving average with exponential decay τ = 3 years, on a
non-empty series (the sums of the source, whose ratio is a real number
exactly when the series is non-empty). -/
noncomputable def weightedAvgOf (data : List (ℤ × ℝ)) (currentYearFloat : ℝ) : ℝ :=
  let weighted := data.map fun d =>
    (d.2, Real.exp (-((currentYearFloat - (d.1 : ℝ)) / 3)))
  let sumWeights := (weighted.map fun item => item.2).sum
  (weighted.map fun item => item.1 * item.2).sum / sumWeights

/-- The weighted moving average as the source computes it: for an empty
series both sums are 0 and `0 / 0` is NaN. -/
noncomputable def weightedAvgOfJs (data : List (ℤ × ℝ)) (currentYearFloat : ℝ) : JsVal :=
  if data.length = 0 then JsVal.nan
  else JsVal.num (weightedAvgOf data currentYearFloat)

/-- Value of `trend.slope * currentYear + trend.intercept` as the source
computes it: when the intercept field is absent (the insufficient-data
trend, fewer than 10 points) `0 * currentYear + undefined` is NaN. -/
noncomputable def trendValueAt (t : TrendResult) (year : ℤ) : JsVal :=
  match t.intercept with
  | some i => JsVal.num (t.slope * (year : ℝ) + i)
  | none => JsVal.nan

/-- The 60th percentile of the data of the last 3 years, falling back to the
historical median when no recent data exists (lines 652-655). -/
noncomputable def recentP60 (data : List (ℤ × ℝ)) (stats : Stats)
    (currentYear : ℤ) : ℝ :=
  let recent := (data.filter fun d => currentYear - 3 ≤ d.1).map fun d => d.2
  if 0 < recent.length then calculatePercentile recent 60
  else stats.percentiles.p50

/-- Lines 639-663: either the calibration override (exact temperatures) or
the hybrid blend `0.40*weightedAvg + 0.35*trend + 0.25*recentP60` followed by
the additive seasonal temperature offset.  NaN (empty series, or a trend
without intercept) propagates through the blend. -/
noncomputable def predictedTempPair (tempMaxData tempMinData : List (ℤ × ℝ))
    (tempMaxStats tempMinStats : Stats) (tempMaxTrend tempMinTrend : TrendResult)
    (targetMonth : ℕ) (currentYear : ℤ) (lat lon : ℝ) : JsVal × JsVal :=
  let seasonalAdj := getSeasonalAdjustments targetMonth
  match findCalibration lat lon targetMonth with
  | some exactCalibration =>
    (JsVal.num exactCalibration.tempMax, JsVal.num exactCalibration.tempMin)
  | none =>
    let currentYearFloat := (currentYear : ℝ) + ((targetMonth : ℝ) - 1) / 12
    let weightedAvgMax := weightedAvgOfJs tempMaxData currentYearFloat
    let weightedAvgMin := weightedAvgOfJs tempMinData currentYearFloat
    let trendMax := trendValueAt tempMaxTrend currentYear
    let trendMin := trendValueAt tempMinTrend currentYear
    let recentP60Max := recentP60 tempMaxData tempMaxStats currentYear
    let recentP60Min := recentP60 tempMinData tempMinStats currentYear
    (((weightedAvgMax.mul (JsVal.num 0.40)).add (trendMax.mul (JsVal.num 0.35))).add
        ((JsVal.num recentP60Max).mul (JsVal.num 0.25)) |>.add (JsVal.num seasonalAdj.temp),
     ((weightedAvgMin.mul (JsVal.num 0.40)).add (trendMin.mul (JsVal.num 0.35))).add
        ((JsVal.num recentP60Min).mul (JsVal.num 0.25)) |>.add (JsVal.num seasonalAdj.temp))

/-! ## The daily pipeline (`calculateDailyProbabilities`, lines 420-927) -/

open Classical in
noncomputable def getRiskLevel (score : ℝ) : String :=
  if 70 ≤ score then "ALTO" else if 40 ≤ score then "MEDIO" else "BAJO"

/-- `getRiskLevel` as applied to a possibly-NaN score: in JS both
`NaN >= 70` and `NaN >= 40` are false, giving `"BAJO"`. -/
noncomputable def getRiskLevelJs (score : JsVal) : String :=
  match score with
  | .nan => "BAJO"
  | .num x => getRiskLevel x

structure DailyResult where
  trendPredTempMax : JsVal
  trendPredTempMin : JsVal
  thresholdVeryHot : ℝ
  thresholdVeryCold : ℝ
  thresholdVeryWindy : ℝ
  thresholdVeryHumid : ℝ
  thresholdHeavyRain : ℝ
  probVeryHot : ℝ
  probVeryCold : ℝ
  probVeryWindy : ℝ
  probVeryHumid : ℝ
  probHeavyRain : ℝ
  frostScore : JsVal
  frostLevel : String
  stormScore : JsVal
  stormLevel : String
  heatStressScore : JsVal
  heatStressLevel : String

open Classical in
/-- The statistical core of `calculateDailyProbabilities`, taking the
already-extracted per-calendar-day `(year, value)` series of each parameter
together with the request's month, the wall-clock year (treated as an
explicit input) and the coordinates. -/
noncomputable def dailyCore (tempMaxData tempMinData windMaxData windAvgData
    humidityData rainData : List (ℤ × ℝ)) (targetMonth : ℕ) (currentYear : ℤ)
    (lat lon : ℝ) : DailyResult :=
  let tempMaxValues := tempMaxData.map fun d => d.2
  let tempMinValues := tempMinData.map fun d => d.2
  let windMaxValues := windMaxData.map fun d => d.2
  let windAvgValues := windAvgData.map fun d => d.2
  let humidityValues := humidityData.map fun d => d.2
  let rainValues := rainData.map fun d => d.2
  let tempMaxTrend := calculateTrend tempMaxData currentYear
  let tempMinTrend := calculateTrend tempMinData currentYear
  let tempMaxStats := statsOf tempMaxValues
  let tempMinStats := statsOf tempMinValues
  let windMaxStats := statsOf windMaxValues
  let windAvgStats := statsOf windAvgValues
  let humidityStats := statsOf humidityValues
  let rainStats := statsOf rainValues
  let seasonalAdj := getSeasonalAdjustments targetMonth
  let pt := predictedTempPair tempMaxData tempMinData tempMaxStats tempMinStats
    tempMaxTrend tempMinTrend targetMonth currentYear lat lon
  let predictedTempMax := pt.1
  let predictedTempMin := pt.2
  let thresholdVeryHot :=
    max tempMaxStats.percentiles.p90 (35 + tempMaxTrend.slope * 10)
  let thresholdVeryCold :=
    min tempMinStats.percentiles.p10 (5 + tempMinTrend.slope * 10)
  let thresholdVeryWindy := max windMaxStats.percentiles.p90 10
  let thresholdVeryHumid : ℝ := 80
  let thresholdHeavyRain := max rainStats.percentiles.p75 10
  let probVeryHot := calculateRealProbability tempMaxValues thresholdVeryHot true
  let probVeryCold := calculateRealProbability tempMinValues thresholdVeryCold false
  let probVeryWindy := calculateRealProbability windMaxValues thresholdVeryWindy true
  let probVeryHumid :=
    calculateRealProbability humidityValues thresholdVeryHumid true *
      seasonalAdj.humidity
  let probHeavyRain :=
    min 100 (calculateRealProbability rainValues thresholdHeavyRain true *
      seasonalAdj.precip)
  -- a NaN predicted temperature propagates into the frost and heat-stress
  -- scores (Math.max/Math.min keep NaN); the remaining operands are sums and
  -- means of real series values and are always real numbers
  let frostRisk := JsVal.jmin (JsVal.num 100)
    ((((JsVal.jmax (JsVal.num 0) ((JsVal.num 10).sub predictedTempMin)).mul
        (JsVal.num 50)).add
      (JsVal.num (humidityStats.mean * 0.3))).add
      (JsVal.num (max 0 (5 - windAvgStats.mean) * 20)))
  let stormRisk := JsVal.jmin (JsVal.num 100)
    (JsVal.num (probHeavyRain * 0.5 +
      windMaxStats.mean / 15 * 30 + humidityStats.mean / 100 * 20))
  let heatStressRisk := JsVal.jmin (JsVal.num 100)
    ((((JsVal.jmax (JsVal.num 0) (predictedTempMax.sub (JsVal.num 30))).mul
        (JsVal.num 3)).add
      (JsVal.num (humidityStats.mean / 100 * 30))).add
      (JsVal.num (max 0 (5 - windAvgStats.mean) * 10)))
  { trendPredTempMax := roundToJs 2 predictedTempMax,
    trendPredTempMin := roundToJs 2 predictedTempMin,
    thresholdVeryHot := thresholdVeryHot,
    thresholdVeryCold := thresholdVeryCold,
    thresholdVeryWindy := thresholdVeryWindy,
    thresholdVeryHumid := thresholdVeryHumid,
    thresholdHeavyRain := thresholdHeavyRain,
    probVeryHot := roundTo 2 probVeryHot,
    probVeryCold := roundTo 2 probVeryCold,
    probVeryWindy := roundTo 2 probVeryWindy,
    probVeryHumid := roundTo 2 probVeryHumid,
    probHeavyRain := roundTo 2 probHeavyRain,
    frostScore := roundToJs 1 frostRisk,
    frostLevel := getRiskLevelJs frostRisk,
    stormScore := roundToJs 1 stormRisk,
    stormLevel := getRiskLevelJs stormRisk,
    heatStressScore := roundToJs 1 heatStressRisk,
    heatStressLevel := getRiskLevelJs heatStressRisk }

/-! ## Adaptive threshold and blend theorems -/

/-- C6:  the veryHot threshold is exactly
`max(P90 of the max-temperature series, 35 + tempMaxSlope * 10)`, and whenever
the fitted `tempMaxSlope` is nonnegative (in particular even when the P90 is
at most 35) the threshold is at least the 35 °C baseline. -/
theorem veryHotThreshold_spec (tempMaxData tempMinData windMaxData windAvgData
    humidityData rainData : List (ℤ × ℝ)) (targetMonth : ℕ) (currentYear : ℤ)
    (lat lon : ℝ) :
    (dailyCore tempMaxData tempMinData windMaxData windAvgData humidityData
        rainData targetMonth currentYear lat lon).thresholdVeryHot =
      max (statsOf (tempMaxData.map fun d => d.2)).percentiles.p90
        (35 + (calculateTrend tempMaxData currentYear).slope * 10) ∧
    (0 ≤ (calculateTrend tempMaxData currentYear).slope →
      35 ≤ (dailyCore tempMaxData tempMinData windMaxData windAvgData humidityData
        rainData targetMonth currentYear lat lon).thresholdVeryHot) := by
  constructor
  · rfl
  · intro hslope
    have heq : (dailyCore tempMaxData tempMinData windMaxData windAvgData humidityData
        rainData targetMonth currentYear lat lon).thresholdVeryHot =
      max (statsOf (tempMaxData.map fun d => d.2)).percentiles.p90
        (35 + (calculateTrend tempMaxData currentYear).slope * 10) := rfl
    rw [heq]
    have h35 : (35 : ℝ) ≤ 35 + (calculateTrend tempMaxData currentYear).slope * 10 := by
      nlinarith
    exact le_trans h35 (le_max_right _ _)

/-- Witness for C6 at a concrete input: a 1-point series has slope 0. -/
theorem veryHotThreshold_spec_witness :
    35 ≤ (dailyCore [((2020:ℤ), (20:ℝ))] [] [] [] [] [] 1 2025 0 0).thresholdVeryHot := by
  apply (veryHotThreshold_spec [((2020:ℤ), (20:ℝ))] [] [] [] [] [] 1 2025 0 0).2
  have : (calculateTrend [((2020:ℤ), (20:ℝ))] 2025).slope = 0 := by
    unfold calculateTrend
    rw [if_pos (by norm_num)]
  rw [this]

lemma calculateTrend_intercept_isSome (data : List (ℤ × ℝ)) (currentYear : ℤ)
    (h : 10 ≤ data.length) :
    ∃ i, (calculateTrend data currentYear).intercept = some i := by
  have hnot : ¬ data.length < 10 := by omega
  unfold calculateTrend
  rw [if_neg hnot]
  exact ⟨_, rfl⟩

/-- C4 (amended): with no matching calibration entry and temperature series
of at least 10 points (so the trend model carries an intercept and the
weighted average is well-defined), the predicted maximum and minimum
temperatures returned by the pipeline are the real blend
`0.40*weightedAvg(τ=3) + 0.35*(slope*currentYear + intercept) +
0.25*recentP60` plus the month's additive seasonal temperature offset
(reported at two decimals); with fewer than 10 points the source's trend
term is `0*currentYear + undefined = NaN` and the prediction is NaN (the
counterexample below). -/
theorem hybridPrediction_formula (tempMaxData tempMinData windMaxData windAvgData
    humidityData rainData : List (ℤ × ℝ)) (targetMonth : ℕ) (currentYear : ℤ)
    (lat lon : ℝ)
    (hcal : findCalibration lat lon targetMonth = none)
    (hlenMax : 10 ≤ tempMaxData.length) (hlenMin : 10 ≤ tempMinData.length) :
    ∃ iMax iMin : ℝ,
      (calculateTrend tempMaxData currentYear).intercept = some iMax ∧
      (calculateTrend tempMinData currentYear).intercept = some iMin ∧
      (dailyCore tempMaxData tempMinData windMaxData windAvgData humidityData
          rainData targetMonth currentYear lat lon).trendPredTempMax =
        JsVal.num (roundTo 2 (0.40 * weightedAvgOf tempMaxData
            ((currentYear : ℝ) + ((targetMonth : ℝ) - 1) / 12)
          + 0.35 * ((calculateTrend tempMaxData currentYear).slope * (currentYear : ℝ) + iMax)
          + 0.25 * recentP60 tempMaxData (statsOf (tempMaxData.map fun d => d.2)) currentYear
          + (getSeasonalAdjustments targetMonth).temp)) ∧
      (dailyCore tempMaxData tempMinData windMaxData windAvgData humidityData
          rainData targetMonth currentYear lat lon).trendPredTempMin =
        JsVal.num (roundTo 2 (0.40 * weightedAvgOf tempMinData
            ((currentYear : ℝ) + ((targetMonth : ℝ) - 1) / 12)
          + 0.35 * ((calculateTrend tempMinData currentYear).slope * (currentYear : ℝ) + iMin)
          + 0.25 * recentP60 tempMinData (statsOf (tempMinData.map fun d => d.2)) currentYear
          + (getSeasonalAdjustments targetMonth).temp)) := by
  obtain ⟨iMax, hiMax⟩ := calculateTrend_intercept_isSome tempMaxData currentYear hlenMax
  obtain ⟨iMin, hiMin⟩ := calculateTrend_intercept_isSome tempMinData currentYear hlenMin
  have htvMax : trendValueAt (calculateTrend tempMaxData currentYear) currentYear =
      JsVal.num ((calculateTrend tempMaxData currentYear).slope * (currentYear : ℝ) + iMax) := by
    unfold trendValueAt
    rw [hiMax]
  have htvMin : trendValueAt (calculateTrend tempMinData currentYear) currentYear =
      JsVal.num ((calculateTrend tempMinData currentYear).slope * (currentYear : ℝ) + iMin) := by
    unfold trendValueAt
    rw [hiMin]
  have hwaMax : weightedAvgOfJs tempMaxData ((currentYear : ℝ) + ((targetMonth : ℝ) - 1) / 12) =
      JsVal.num (weightedAvgOf tempMaxData ((currentYear : ℝ) + ((targetMonth : ℝ) - 1) / 12)) := by
    unfold weightedAvgOfJs
    rw [if_neg (by omega)]
  have hwaMin : weightedAvgOfJs tempMinData ((currentYear : ℝ) + ((targetMonth : ℝ) - 1) / 12) =
      JsVal.num (weightedAvgOf tempMinData ((currentYear : ℝ) + ((targetMonth : ℝ) - 1) / 12)) := by
    unfold weightedAvgOfJs
    rw [if_neg (by omega)]
  have hpair : predictedTempPair tempMaxData tempMinData
      (statsOf (tempMaxData.map fun d => d.2)) (statsOf (tempMinData.map fun d => d.2))
      (calculateTrend tempMaxData currentYear) (calculateTrend tempMinData currentYear)
      targetMonth currentYear lat lon =
      (JsVal.num (weightedAvgOf tempMaxData ((currentYear : ℝ) + ((targetMonth : ℝ) - 1) / 12) * 0.40
        + ((calculateTrend tempMaxData currentYear).slope * (currentYear : ℝ) + iMax) * 0.35
        + recentP60 tempMaxData (statsOf (tempMaxData.map fun d => d.2)) currentYear * 0.25
        + (getSeasonalAdjustments targetMonth).temp),
       JsVal.num (weightedAvgOf tempMinData ((currentYear : ℝ) + ((targetMonth : ℝ) - 1) / 12) * 0.40
        + ((calculateTrend tempMinData currentYear).slope * (currentYear : ℝ) + iMin) * 0.35
        + recentP60 tempMinData (statsOf (tempMinData.map fun d => d.2)) currentYear * 0.25
        + (getSeasonalAdjustments targetMonth).temp)) := by
    unfold predictedTempPair
    rw [hcal]
    simp only []
    rw [hwaMax, hwaMin, htvMax, htvMin]
    rfl
  refine ⟨iMax, iMin, hiMax, hiMin, ?_, ?_⟩
  · have heq : (dailyCore tempMaxData tempMinData windMaxData windAvgData humidityData
        rainData targetMonth currentYear lat lon).trendPredTempMax =
      roundToJs 2 (predictedTempPair tempMaxData tempMinData
        (statsOf (tempMaxData.map fun d => d.2)) (statsOf (tempMinData.map fun d => d.2))
        (calculateTrend tempMaxData currentYear) (calculateTrend tempMinData currentYear)
        targetMonth currentYear lat lon).1 := rfl
    rw [heq, hpair]
    show JsVal.num (roundTo 2 _) = JsVal.num (roundTo 2 _)
    exact congrArg JsVal.num (congrArg (roundTo 2) (by ring))
  · have heq : (dailyCore tempMaxData tempMinData windMaxData windAvgData humidityData
        rainData targetMonth currentYear lat lon).trendPredTempMin =
      roundToJs 2 (predictedTempPair tempMaxData tempMinData
        (statsOf (tempMaxData.map fun d => d.2)) (statsOf (tempMinData.map fun d => d.2))
        (calculateTrend tempMaxData currentYear) (calculateTrend tempMinData currentYear)
        targetMonth currentYear lat lon).2 := rfl
    rw [heq, hpair]
    show JsVal.num (roundTo 2 _) = JsVal.num (roundTo 2 _)
    exact congrArg JsVal.num (congrArg (roundTo 2) (by ring))

/-- Counterexample to C4 as stated: with a 1-point maximum-temperature series
(fewer than the 10 points the trend model needs) and no calibration match,
the source computes `trendMax = 0 * currentYear + undefined = NaN`, so the
reported predicted maximum temperature is NaN, not the real-valued blend the
claim promises. -/
theorem hybridPrediction_nan :
    (dailyCore [((2020:ℤ), (20:ℝ))] [((2020:ℤ), (10:ℝ))] [] [] [] []
      1 2025 0 0).trendPredTempMax = JsVal.nan := by
  have hcal : findCalibration 0 0 1 = none := by
    norm_num [findCalibration, calibrationDatabase, findCalibrationIn]
  have htvMax : trendValueAt (calculateTrend [((2020:ℤ), (20:ℝ))] 2025) 2025 = JsVal.nan := by
    unfold trendValueAt calculateTrend
    rw [if_pos (by norm_num)]
  have htvMin : trendValueAt (calculateTrend [((2020:ℤ), (10:ℝ))] 2025) 2025 = JsVal.nan := by
    unfold trendValueAt calculateTrend
    rw [if_pos (by norm_num)]
  have hpair : predictedTempPair [((2020:ℤ), (20:ℝ))] [((2020:ℤ), (10:ℝ))]
      (statsOf [(20:ℝ)]) (statsOf [(10:ℝ)])
      (calculateTrend [((2020:ℤ), (20:ℝ))] 2025) (calculateTrend [((2020:ℤ), (10:ℝ))] 2025)
      1 2025 0 0 = (JsVal.nan, JsVal.nan) := by
    unfold predictedTempPair
    rw [hcal]
    simp only []
    rw [htvMax, htvMin]
    simp only [JsVal.mul_nan_left, JsVal.add_nan_right, JsVal.add_nan_left]
  have heq : (dailyCore [((2020:ℤ), (20:ℝ))] [((2020:ℤ), (10:ℝ))] [] [] [] []
      1 2025 0 0).trendPredTempMax =
    roundToJs 2 (predictedTempPair [((2020:ℤ), (20:ℝ))] [((2020:ℤ), (10:ℝ))]
      (statsOf [(20:ℝ)]) (statsOf [(10:ℝ)])
      (calculateTrend [((2020:ℤ), (20:ℝ))] 2025) (calculateTrend [((2020:ℤ), (10:ℝ))] 2025)
      1 2025 0 0).1 := rfl
  rw [heq, hpair]
  rfl

/-! ## Calibration override (C3) -/

lemma dailyCore_calibrated (tempMaxData tempMinData windMaxData windAvgData
    humidityData rainData : List (ℤ × ℝ)) (targetMonth : ℕ) (currentYear : ℤ)
    (lat lon : ℝ) (cal : CalibrationEntry)
    (hfind : findCalibration lat lon targetMonth = some cal) :
    (dailyCore tempMaxData tempMinData windMaxData windAvgData humidityData
        rainData targetMonth currentYear lat lon).trendPredTempMax =
      JsVal.num (roundTo 2 cal.tempMax) ∧
    (dailyCore tempMaxData tempMinData windMaxData windAvgData humidityData
        rainData targetMonth currentYear lat lon).trendPredTempMin =
      JsVal.num (roundTo 2 cal.tempMin) := by
  have hpair : predictedTempPair tempMaxData tempMinData
      (statsOf (tempMaxData.map fun d => d.2)) (statsOf (tempMinData.map fun d => d.2))
      (calculateTrend tempMaxData currentYear) (calculateTrend tempMinData currentYear)
      targetMonth currentYear lat lon =
      (JsVal.num cal.tempMax, JsVal.num cal.tempMin) := by
    unfold predictedTempPair
    rw [hfind]
  constructor
  · have heq : (dailyCore tempMaxData tempMinData windMaxData windAvgData humidityData
        rainData targetMonth currentYear lat lon).trendPredTempMax =
      roundToJs 2 (predictedTempPair tempMaxData tempMinData
        (statsOf (tempMaxData.map fun d => d.2)) (statsOf (tempMinData.map fun d => d.2))
        (calculateTrend tempMaxData currentYear) (calculateTrend tempMinData currentYear)
        targetMonth currentYear lat lon).1 := rfl
    rw [heq, hpair]
    rfl
  · have heq : (dailyCore tempMaxData tempMinData windMaxData windAvgData humidityData
        rainData targetMonth currentYear lat lon).trendPredTempMin =
      roundToJs 2 (predictedTempPair tempMaxData tempMinData
        (statsOf (tempMaxData.map fun d => d.2)) (statsOf (tempMinData.map fun d => d.2))
        (calculateTrend tempMaxData currentYear) (calculateTrend tempMinData currentYear)
        targetMonth currentYear lat lon).2 := rfl
    rw [heq, hpair]
    rfl

/-- C3:  whenever the request's `(lat, lon, month)` lies within the radius
(Euclidean distance in degrees) of a calibration entry with matching month —
in particular at the entry's exact center — the pipeline's predicted
temperatures are exactly the entry's `tempMax`/`tempMin`: a hard override
with no seasonal temperature adjustment. -/
theorem calibrationOverride_exact (tempMaxData tempMinData windMaxData windAvgData
    humidityData rainData : List (ℤ × ℝ)) (targetMonth : ℕ) (currentYear : ℤ)
    (lat lon : ℝ) (cal : CalibrationEntry)
    (hmem : cal ∈ calibrationDatabase)
    (hdist : Real.sqrt ((lat - cal.lat) ^ 2 + (lon - cal.lon) ^ 2) ≤ cal.radius)
    (hmonth : targetMonth = cal.month) :
    (dailyCore tempMaxData tempMinData windMaxData windAvgData humidityData
        rainData targetMonth currentYear lat lon).trendPredTempMax =
      JsVal.num cal.tempMax ∧
    (dailyCore tempMaxData tempMinData windMaxData windAvgData humidityData
        rainData targetMonth currentYear lat lon).trendPredTempMin =
      JsVal.num cal.tempMin := by
  subst hmonth
  have hmem' : cal = (⟨-17.39, -66.16, 10, 26.0, 12.0, 0.5⟩ : CalibrationEntry) ∨
      cal = (⟨-17.39, -66.16, 11, 24.5, 11.0, 0.5⟩ : CalibrationEntry) ∨
      cal = (⟨-17.39, -66.16, 12, 26.0, 13.0, 0.5⟩ : CalibrationEntry) ∨
      cal = (⟨-16.50, -68.15, 10, 16.5, 3.0, 0.3⟩ : CalibrationEntry) ∨
      cal = (⟨-17.78, -63.18, 10, 29.0, 19.0, 0.4⟩ : CalibrationEntry) := by
    simpa [calibrationDatabase] using hmem
  rcases hmem' with rfl | rfl | rfl | rfl | rfl <;> simp only [] at hdist ⊢
  · -- cochabamba_oct: first entry, matched immediately
    have hfind : findCalibration lat lon 10 =
        some ⟨-17.39, -66.16, 10, 26.0, 12.0, 0.5⟩ := by
      unfold findCalibration calibrationDatabase
      rw [findCalibrationIn, if_pos]
      exact ⟨hdist, rfl⟩
    obtain ⟨h1, h2⟩ := dailyCore_calibrated tempMaxData tempMinData windMaxData
      windAvgData humidityData rainData 10 currentYear lat lon _ hfind
    rw [h1, h2]
    constructor
    · show JsVal.num (roundTo 2 (26.0 : ℝ)) = JsVal.num 26.0
      rw [roundTo_of_mul_eq 2 26.0 2600 (by norm_num)]
    · show JsVal.num (roundTo 2 (12.0 : ℝ)) = JsVal.num 12.0
      rw [roundTo_of_mul_eq 2 12.0 1200 (by norm_num)]
  · -- cochabamba_nov: month 11 skips the first entry
    have hfind : findCalibration lat lon 11 =
        some ⟨-17.39, -66.16, 11, 24.5, 11.0, 0.5⟩ := by
      unfold findCalibration calibrationDatabase
      rw [findCalibrationIn, if_neg (by rintro ⟨-, hm⟩; norm_num at hm)]
      rw [findCalibrationIn, if_pos]
      exact ⟨hdist, rfl⟩
    obtain ⟨h1, h2⟩ := dailyCore_calibrated tempMaxData tempMinData windMaxData
      windAvgData humidityData rainData 11 currentYear lat lon _ hfind
    rw [h1, h2]
    constructor
    · show JsVal.num (roundTo 2 (24.5 : ℝ)) = JsVal.num 24.5
      rw [roundTo_of_mul_eq 2 24.5 2450 (by norm_num)]
    · show JsVal.num (roundTo 2 (11.0 : ℝ)) = JsVal.num 11.0
      rw [roundTo_of_mul_eq 2 11.0 1100 (by norm_num)]
  · -- cochabamba_dic: month 12 skips the first two entries
    have hfind : findCalibration lat lon 12 =
        some ⟨-17.39, -66.16, 12, 26.0, 13.0, 0.5⟩ := by
      unfold findCalibration calibrationDatabase
      rw [findCalibrationIn, if_neg (by rintro ⟨-, hm⟩; norm_num at hm)]
      rw [findCalibrationIn, if_neg (by rintro ⟨-, hm⟩; norm_num at hm)]
      rw [findCalibrationIn, if_pos]
      exact ⟨hdist, rfl⟩
    obtain ⟨h1, h2⟩ := dailyCore_calibrated tempMaxData tempMinData windMaxData
      windAvgData humidityData rainData 12 currentYear lat lon _ hfind
    rw [h1, h2]
    constructor
    · show JsVal.num (roundTo 2 (26.0 : ℝ)) = JsVal.num 26.0
      rw [roundTo_of_mul_eq 2 26.0 2600 (by norm_num)]
    · show JsVal.num (roundTo 2 (13.0 : ℝ)) = JsVal.num 13.0
      rw [roundTo_of_mul_eq 2 13.0 1300 (by norm_num)]
  · -- lapaz_oct: within 0.3° of La Paz, hence more than 0.5° from Cochabamba
    have hsq := (Real.sqrt_le_iff.mp hdist).2
    have hfind : findCalibration lat lon 10 =
        some ⟨-16.50, -68.15, 10, 16.5, 3.0, 0.3⟩ := by
      unfold findCalibration calibrationDatabase
      rw [findCalibrationIn, if_neg (by
        rintro ⟨hcon, -⟩
        simp only [] at hcon
        have h2 := (Real.sqrt_le_iff.mp hcon).2
        nlinarith [hsq, h2, sq_nonneg (lat + 16.5 + 0.3), sq_nonneg (lat + 16.5 - 0.3),
          sq_nonneg (lon + 68.15 + 0.3), sq_nonneg (lon + 68.15 - 0.3)])]
      rw [findCalibrationIn, if_neg (by rintro ⟨-, hm⟩; norm_num at hm)]
      rw [findCalibrationIn, if_neg (by rintro ⟨-, hm⟩; norm_num at hm)]
      rw [findCalibrationIn, if_pos]
      exact ⟨hdist, rfl⟩
    obtain ⟨h1, h2⟩ := dailyCore_calibrated tempMaxData tempMinData windMaxData
      windAvgData humidityData rainData 10 currentYear lat lon _ hfind
    rw [h1, h2]
    constructor
    · show JsVal.num (roundTo 2 (16.5 : ℝ)) = JsVal.num 16.5
      rw [roundTo_of_mul_eq 2 16.5 1650 (by norm_num)]
    · show JsVal.num (roundTo 2 (3.0 : ℝ)) = JsVal.num 3.0
      rw [roundTo_of_mul_eq 2 3.0 300 (by norm_num)]
  · -- santacruz_oct: within 0.4° of Santa Cruz, far from Cochabamba and La Paz
    have hsq := (Real.sqrt_le_iff.mp hdist).2
    have hfind : findCalibration lat lon 10 =
        some ⟨-17.78, -63.18, 10, 29.0, 19.0, 0.4⟩ := by
      unfold findCalibration calibrationDatabase
      rw [findCalibrationIn, if_neg (by
        rintro ⟨hcon, -⟩
        simp only [] at hcon
        have h2 := (Real.sqrt_le_iff.mp hcon).2
        nlinarith [hsq, h2, sq_nonneg (lat + 17.78 + 0.4), sq_nonneg (lat + 17.78 - 0.4),
          sq_nonneg (lon + 63.18 + 0.4), sq_nonneg (lon + 63.18 - 0.4)])]
      rw [findCalibrationIn, if_neg (by rintro ⟨-, hm⟩; norm_num at hm)]
      rw [findCalibrationIn, if_neg (by rintro ⟨-, hm⟩; norm_num at hm)]
      rw [findCalibrationIn, if_neg (by
        rintro ⟨hcon, -⟩
        simp only [] at hcon
        have h2 := (Real.sqrt_le_iff.mp hcon).2
        nlinarith [hsq, h2, sq_nonneg (lat + 17.78 + 0.4), sq_nonneg (lat + 17.78 - 0.4),
          sq_nonneg (lon + 63.18 + 0.4), sq_nonneg (lon + 63.18 - 0.4)])]
      rw [findCalibrationIn, if_pos]
      exact ⟨hdist, rfl⟩
    obtain ⟨h1, h2⟩ := dailyCore_calibrated tempMaxData tempMinData windMaxData
      windAvgData humidityData rainData 10 currentYear lat lon _ hfind
    rw [h1, h2]
    constructor
    · show JsVal.num (roundTo 2 (29.0 : ℝ)) = JsVal.num 29.0
      rw [roundTo_of_mul_eq 2 29.0 2900 (by norm_num)]
    · show JsVal.num (roundTo 2 (19.0 : ℝ)) = JsVal.num 19.0
      rw [roundTo_of_mul_eq 2 19.0 1900 (by norm_num)]

/-- Witness for C3 at the exact Cochabamba-October center point. -/
theorem calibrationOverride_exact_witness :
    (dailyCore [] [] [] [] [] [] 10 2025 (-17.39) (-66.16)).trendPredTempMax =
      JsVal.num 26.0 ∧
    (dailyCore [] [] [] [] [] [] 10 2025 (-17.39) (-66.16)).trendPredTempMin =
      JsVal.num 12.0 :=
  calibrationOverride_exact [] [] [] [] [] [] 10 2025 (-17.39) (-66.16)
    ⟨-17.39, -66.16, 10, 26.0, 12.0, 0.5⟩
    (by simp [calibrationDatabase])
    (by norm_num [Real.sqrt_zero])
    rfl

/-! ## Seasonally scaled probabilities (C1) and risk scores (C2) -/

/-- C1 (amended):  the veryHumid probability is the empirical exceedance
frequency times the month's humidity multiplier with NO cap (it can exceed
100), while the heavyRain probability is the frequency times the precip
multiplier capped at 100; only the heavyRain probability is guaranteed to be
at most 100. -/
theorem seasonalProbability_formula (tempMaxData tempMinData windMaxData
    windAvgData humidityData rainData : List (ℤ × ℝ)) (targetMonth : ℕ)
    (currentYear : ℤ) (lat lon : ℝ) :
    (dailyCore tempMaxData tempMinData windMaxData windAvgData humidityData
        rainData targetMonth currentYear lat lon).probVeryHumid =
      roundTo 2 (calculateRealProbability (humidityData.map fun d => d.2) 80 true *
        (getSeasonalAdjustments targetMonth).humidity) ∧
    (dailyCore tempMaxData tempMinData windMaxData windAvgData humidityData
        rainData targetMonth currentYear lat lon).probHeavyRain =
      roundTo 2 (min 100 (calculateRealProbability (rainData.map fun d => d.2)
        (max (statsOf (rainData.map fun d => d.2)).percentiles.p75 10) true *
        (getSeasonalAdjustments targetMonth).precip)) ∧
    (dailyCore tempMaxData tempMinData windMaxData windAvgData humidityData
        rainData targetMonth currentYear lat lon).probHeavyRain ≤ 100 := by
  refine ⟨rfl, rfl, ?_⟩
  have heq : (dailyCore tempMaxData tempMinData windMaxData windAvgData humidityData
      rainData targetMonth currentYear lat lon).probHeavyRain =
    roundTo 2 (min 100 (calculateRealProbability (rainData.map fun d => d.2)
      (max (statsOf (rainData.map fun d => d.2)).percentiles.p75 10) true *
      (getSeasonalAdjustments targetMonth).precip)) := rfl
  rw [heq]
  exact roundTo_le_hundred 2 (min_le_left _ _)

/-- Counterexample to C1 as stated: a January request whose humidity series
always exceeds the fixed 80% threshold yields a reported veryHumid
probability of `100 * 1.2 = 120 > 100` — the humidity probability is NOT
capped at 100 (only the rain probability is). -/
theorem veryHumid_probability_exceeds_cap :
    100 < (dailyCore [((2020:ℤ), (20:ℝ))] [((2020:ℤ), (10:ℝ))] [((2020:ℤ), (5:ℝ))]
      [((2020:ℤ), (5:ℝ))] [((2020:ℤ), (90:ℝ))] [((2020:ℤ), (0:ℝ))]
      1 2025 0 0).probVeryHumid := by
  have heq : (dailyCore [((2020:ℤ), (20:ℝ))] [((2020:ℤ), (10:ℝ))] [((2020:ℤ), (5:ℝ))]
      [((2020:ℤ), (5:ℝ))] [((2020:ℤ), (90:ℝ))] [((2020:ℤ), (0:ℝ))]
      1 2025 0 0).probVeryHumid =
    roundTo 2 (calculateRealProbability [(90:ℝ)] 80 true *
      (getSeasonalAdjustments 1).humidity) := rfl
  rw [heq]
  have h1 : calculateRealProbability [(90:ℝ)] 80 true = 100 := by
    unfold calculateRealProbability
    norm_num [List.filter]
  have h2 : (getSeasonalAdjustments 1).humidity = 1.2 := rfl
  rw [h1, h2]
  rw [show (100:ℝ) * 1.2 = 120 by norm_num]
  rw [roundTo_of_mul_eq 2 120 12000 (by norm_num)]
  norm_num

/-- A score of the form `Math.min(100, raw)` is either NaN (when `raw` is
NaN) or a number of at most 100, also after rounding. -/
lemma roundToJs_jmin_hundred (d : ℕ) (v : JsVal) :
    roundToJs d (JsVal.jmin (JsVal.num 100) v) = JsVal.nan ∨
    ∃ x, roundToJs d (JsVal.jmin (JsVal.num 100) v) = JsVal.num x ∧ x ≤ 100 := by
  cases v with
  | nan => exact Or.inl rfl
  | num y =>
    exact Or.inr ⟨roundTo d (min 100 y), rfl, roundTo_le_hundred d (min_le_left _ _)⟩

/-- C2 (amended):  each compound risk score is capped above at 100 by
`Math.min(100, ·)` and carries no lower clamp at 0 (it can go negative —
counterexample below).  The storm score is always a number of at most 100;
the frost and heat-stress scores are at most 100 whenever they are numbers,
and are NaN exactly on the NaN-prediction path (no calibration match and a
temperature series of fewer than 10 points). -/
theorem riskScores_upper_bounded (tempMaxData tempMinData windMaxData
    windAvgData humidityData rainData : List (ℤ × ℝ)) (targetMonth : ℕ)
    (currentYear : ℤ) (lat lon : ℝ) :
    ((dailyCore tempMaxData tempMinData windMaxData windAvgData humidityData
        rainData targetMonth currentYear lat lon).frostScore = JsVal.nan ∨
      ∃ x, (dailyCore tempMaxData tempMinData windMaxData windAvgData humidityData
        rainData targetMonth currentYear lat lon).frostScore = JsVal.num x ∧ x ≤ 100) ∧
    (∃ x, (dailyCore tempMaxData tempMinData windMaxData windAvgData humidityData
        rainData targetMonth currentYear lat lon).stormScore = JsVal.num x ∧ x ≤ 100) ∧
    ((dailyCore tempMaxData tempMinData windMaxData windAvgData humidityData
        rainData targetMonth currentYear lat lon).heatStressScore = JsVal.nan ∨
      ∃ x, (dailyCore tempMaxData tempMinData windMaxData windAvgData humidityData
        rainData targetMonth currentYear lat lon).heatStressScore = JsVal.num x ∧ x ≤ 100) := by
  refine ⟨?_, ?_, ?_⟩
  · show roundToJs 1 (JsVal.jmin (JsVal.num 100) _) = JsVal.nan ∨
      ∃ x, roundToJs 1 (JsVal.jmin (JsVal.num 100) _) = JsVal.num x ∧ x ≤ 100
    exact roundToJs_jmin_hundred 1 _
  · show ∃ x, roundToJs 1 (JsVal.jmin (JsVal.num 100) (JsVal.num _)) = JsVal.num x ∧ x ≤ 100
    exact ⟨_, rfl, roundTo_le_hundred 1 (min_le_left _ _)⟩
  · show roundToJs 1 (JsVal.jmin (JsVal.num 100) _) = JsVal.nan ∨
      ∃ x, roundToJs 1 (JsVal.jmin (JsVal.num 100) _) = JsVal.num x ∧ x ≤ 100
    exact roundToJs_jmin_hundred 1 _

lemma statsOf_singleton_mean (x : ℝ) : (statsOf [x]).mean = roundTo 2 x := by
  unfold statsOf calculateStatistics
  norm_num

/-- Counterexample to C2 as stated: at the Cochabamba-October calibration
point (predicted tempMin 12), with a humidity series whose mean is `-100`
(a value the `> -900` sentinel filter admits) and wind average 5, the frost
risk score is `-30 < 0`: risk scores are not clamped below at 0. -/
theorem frostScore_negative :
    ∃ x, (dailyCore [((2020:ℤ), (20:ℝ))] [((2020:ℤ), (10:ℝ))] [((2020:ℤ), (5:ℝ))]
      [((2020:ℤ), (5:ℝ))] [((2020:ℤ), (-100:ℝ))] [((2020:ℤ), (0:ℝ))]
      10 2025 (-17.39) (-66.16)).frostScore = JsVal.num x ∧ x < 0 := by
  have hfind : findCalibration (-17.39) (-66.16) 10 =
      some ⟨-17.39, -66.16, 10, 26.0, 12.0, 0.5⟩ := by
    unfold findCalibration calibrationDatabase
    rw [findCalibrationIn, if_pos]
    constructor
    · have h0 : ((-17.39 : ℝ) - -17.39) ^ 2 + ((-66.16 : ℝ) - -66.16) ^ 2 = 0 := by
        norm_num
      rw [h0, Real.sqrt_zero]
      norm_num
    · rfl
  have hpair : predictedTempPair [((2020:ℤ), (20:ℝ))] [((2020:ℤ), (10:ℝ))]
      (statsOf [(20:ℝ)]) (statsOf [(10:ℝ)])
      (calculateTrend [((2020:ℤ), (20:ℝ))] 2025)
      (calculateTrend [((2020:ℤ), (10:ℝ))] 2025)
      10 2025 (-17.39) (-66.16) = (JsVal.num (26.0 : ℝ), JsVal.num (12.0 : ℝ)) := by
    unfold predictedTempPair
    rw [hfind]
  have heq : (dailyCore [((2020:ℤ), (20:ℝ))] [((2020:ℤ), (10:ℝ))] [((2020:ℤ), (5:ℝ))]
      [((2020:ℤ), (5:ℝ))] [((2020:ℤ), (-100:ℝ))] [((2020:ℤ), (0:ℝ))]
      10 2025 (-17.39) (-66.16)).frostScore =
    roundToJs 1 (JsVal.jmin (JsVal.num 100)
      ((((JsVal.jmax (JsVal.num 0) ((JsVal.num 10).sub (predictedTempPair [((2020:ℤ), (20:ℝ))]
          [((2020:ℤ), (10:ℝ))] (statsOf [(20:ℝ)]) (statsOf [(10:ℝ)])
          (calculateTrend [((2020:ℤ), (20:ℝ))] 2025)
          (calculateTrend [((2020:ℤ), (10:ℝ))] 2025)
          10 2025 (-17.39) (-66.16)).2)).mul (JsVal.num 50)).add
        (JsVal.num ((statsOf [(-100:ℝ)]).mean * 0.3))).add
        (JsVal.num (max 0 (5 - (statsOf [(5:ℝ)]).mean) * 20)))) := rfl
  rw [heq, hpair]
  have hmean1 : (statsOf [(-100:ℝ)]).mean = -100 := by
    rw [statsOf_singleton_mean, roundTo_of_mul_eq 2 (-100) (-10000) (by norm_num)]
  have hmean2 : (statsOf [(5:ℝ)]).mean = 5 := by
    rw [statsOf_singleton_mean, roundTo_of_mul_eq 2 5 500 (by norm_num)]
  rw [hmean1, hmean2]
  simp only [JsVal.sub, JsVal.jmax, JsVal.mul, JsVal.add, JsVal.jmin, roundToJs]
  refine ⟨_, rfl, ?_⟩
  norm_num [max_def, min_def]
  rw [roundTo_of_mul_eq 1 (-30) (-300) (by norm_num)]
  norm_num

/-! ## Witnesses at concrete inputs -/

/-- Witness for C4: no calibration entry has month 1, so a January request
at `(0, 0)` with 10-point temperature series takes the hybrid-blend branch
with a real-valued trend term. -/
theorem hybridPrediction_formula_witness :
    ∃ iMax iMin : ℝ,
      (calculateTrend [((2011:ℤ), (20:ℝ)), ((2012:ℤ), (21:ℝ)), ((2013:ℤ), (20:ℝ)),
        ((2014:ℤ), (22:ℝ)), ((2015:ℤ), (21:ℝ)), ((2016:ℤ), (23:ℝ)), ((2017:ℤ), (22:ℝ)),
        ((2018:ℤ), (24:ℝ)), ((2019:ℤ), (23:ℝ)), ((2020:ℤ), (25:ℝ))] 2025).intercept =
        some iMax ∧
      (calculateTrend [((2011:ℤ), (10:ℝ)), ((2012:ℤ), (11:ℝ)), ((2013:ℤ), (10:ℝ)),
        ((2014:ℤ), (12:ℝ)), ((2015:ℤ), (11:ℝ)), ((2016:ℤ), (13:ℝ)), ((2017:ℤ), (12:ℝ)),
        ((2018:ℤ), (14:ℝ)), ((2019:ℤ), (13:ℝ)), ((2020:ℤ), (15:ℝ))] 2025).intercept =
        some iMin ∧
      (dailyCore [((2011:ℤ), (20:ℝ)), ((2012:ℤ), (21:ℝ)), ((2013:ℤ), (20:ℝ)),
          ((2014:ℤ), (22:ℝ)), ((2015:ℤ), (21:ℝ)), ((2016:ℤ), (23:ℝ)), ((2017:ℤ), (22:ℝ)),
          ((2018:ℤ), (24:ℝ)), ((2019:ℤ), (23:ℝ)), ((2020:ℤ), (25:ℝ))]
        [((2011:ℤ), (10:ℝ)), ((2012:ℤ), (11:ℝ)), ((2013:ℤ), (10:ℝ)),
          ((2014:ℤ), (12:ℝ)), ((2015:ℤ), (11:ℝ)), ((2016:ℤ), (13:ℝ)), ((2017:ℤ), (12:ℝ)),
          ((2018:ℤ), (14:ℝ)), ((2019:ℤ), (13:ℝ)), ((2020:ℤ), (15:ℝ))]
        [] [] [] [] 1 2025 0 0).trendPredTempMax =
        JsVal.num (roundTo 2 (0.40 * weightedAvgOf [((2011:ℤ), (20:ℝ)), ((2012:ℤ), (21:ℝ)),
            ((2013:ℤ), (20:ℝ)), ((2014:ℤ), (22:ℝ)), ((2015:ℤ), (21:ℝ)), ((2016:ℤ), (23:ℝ)),
            ((2017:ℤ), (22:ℝ)), ((2018:ℤ), (24:ℝ)), ((2019:ℤ), (23:ℝ)), ((2020:ℤ), (25:ℝ))]
            (((2025:ℤ) : ℝ) + (((1:ℕ) : ℝ) - 1) / 12)
          + 0.35 * ((calculateTrend [((2011:ℤ), (20:ℝ)), ((2012:ℤ), (21:ℝ)), ((2013:ℤ), (20:ℝ)),
              ((2014:ℤ), (22:ℝ)), ((2015:ℤ), (21:ℝ)), ((2016:ℤ), (23:ℝ)), ((2017:ℤ), (22:ℝ)),
              ((2018:ℤ), (24:ℝ)), ((2019:ℤ), (23:ℝ)), ((2020:ℤ), (25:ℝ))] 2025).slope *
              ((2025:ℤ) : ℝ) + iMax)
          + 0.25 * recentP60 [((2011:ℤ), (20:ℝ)), ((2012:ℤ), (21:ℝ)), ((2013:ℤ), (20:ℝ)),
              ((2014:ℤ), (22:ℝ)), ((2015:ℤ), (21:ℝ)), ((2016:ℤ), (23:ℝ)), ((2017:ℤ), (22:ℝ)),
              ((2018:ℤ), (24:ℝ)), ((2019:ℤ), (23:ℝ)), ((2020:ℤ), (25:ℝ))]
              (statsOf ([((2011:ℤ), (20:ℝ)), ((2012:ℤ), (21:ℝ)), ((2013:ℤ), (20:ℝ)),
                ((2014:ℤ), (22:ℝ)), ((2015:ℤ), (21:ℝ)), ((2016:ℤ), (23:ℝ)), ((2017:ℤ), (22:ℝ)),
                ((2018:ℤ), (24:ℝ)), ((2019:ℤ), (23:ℝ)), ((2020:ℤ), (25:ℝ))].map fun d => d.2))
              2025
          + (getSeasonalAdjustments 1).temp)) := by
  obtain ⟨iMax, iMin, h1, h2, h3, -⟩ := hybridPrediction_formula
    [((2011:ℤ), (20:ℝ)), ((2012:ℤ), (21:ℝ)), ((2013:ℤ), (20:ℝ)),
      ((2014:ℤ), (22:ℝ)), ((2015:ℤ), (21:ℝ)), ((2016:ℤ), (23:ℝ)), ((2017:ℤ), (22:ℝ)),
      ((2018:ℤ), (24:ℝ)), ((2019:ℤ), (23:ℝ)), ((2020:ℤ), (25:ℝ))]
    [((2011:ℤ), (10:ℝ)), ((2012:ℤ), (11:ℝ)), ((2013:ℤ), (10:ℝ)),
      ((2014:ℤ), (12:ℝ)), ((2015:ℤ), (11:ℝ)), ((2016:ℤ), (13:ℝ)), ((2017:ℤ), (12:ℝ)),
      ((2018:ℤ), (14:ℝ)), ((2019:ℤ), (13:ℝ)), ((2020:ℤ), (15:ℝ))]
    [] [] [] [] 1 2025 0 0
    (by norm_num [findCalibration, calibrationDatabase, findCalibrationIn])
    (by decide) (by decide)
  exact ⟨iMax, iMin, h1, h2, h3⟩

/-- Witness for C5: a 1-point series has slope exactly 0, and a 10-point
non-constant series has a real `rSquared` in `[0, 1]`. -/
theorem calculateTrend_spec_witness :
    (calculateTrend [((2020:ℤ), (1:ℝ))] 2025).slope = 0 ∧
    ∃ r, (calculateTrend [((2011:ℤ), (1:ℝ)), ((2012:ℤ), (2:ℝ)), ((2013:ℤ), (1:ℝ)),
        ((2014:ℤ), (3:ℝ)), ((2015:ℤ), (2:ℝ)), ((2016:ℤ), (4:ℝ)), ((2017:ℤ), (3:ℝ)),
        ((2018:ℤ), (5:ℝ)), ((2019:ℤ), (4:ℝ)), ((2020:ℤ), (6:ℝ))] 2025).rSquared =
      some (JsVal.num r) ∧ 0 ≤ r ∧ r ≤ 1 :=
  ⟨((calculateTrend_spec [((2020:ℤ), (1:ℝ))] 2025).2 (by decide)).1,
   (calculateTrend_spec [((2011:ℤ), (1:ℝ)), ((2012:ℤ), (2:ℝ)), ((2013:ℤ), (1:ℝ)),
      ((2014:ℤ), (3:ℝ)), ((2015:ℤ), (2:ℝ)), ((2016:ℤ), (4:ℝ)), ((2017:ℤ), (3:ℝ)),
      ((2018:ℤ), (5:ℝ)), ((2019:ℤ), (4:ℝ)), ((2020:ℤ), (6:ℝ))] 2025).1 (by decide)
      ⟨((2011:ℤ), (1:ℝ)), by simp, ((2012:ℤ), (2:ℝ)), by simp, by norm_num⟩⟩

/-- Witness for C7 on the two-point list `[2, 1]`. -/
theorem percentile_min_max_mono_witness :
    calculatePercentile [(2:ℝ), 1] 0 ∈ [(2:ℝ), 1] ∧
    calculatePercentile [(2:ℝ), 1] 0 ≤ calculatePercentile [(2:ℝ), 1] 100 := by
  have h := percentile_min_max_mono [(2:ℝ), 1] 0 100 (by simp)
  exact ⟨h.1.1, h.2.2 (by norm_num) (by norm_num) (by norm_num)⟩

/-- Witness for C8: the filter keeps a non-empty singleton non-empty. -/
theorem filterOutliers_safe_witness :
    filterOutliers [(1:ℝ)] ≠ [] :=
  (filterOutliers_safe [(1:ℝ)] true).2.2.1 (by simp)

end NasaMvp
